import Mathlib

/-!
# fasthttpsession: a shallow embedding of the session engine

The Go package `fasthttpsession` (files `session.go`, `config.go`, `cookie.go`) and its
postgres backend (`postgres/provider.go`) are embedded as pure functions with explicit state
passing.  Go strings are `String`, a Go `error` is `Option String` (`none` is `nil`), a nil-able
interface value is an `Option`, a run-time panic is an `Except.error` or a `panicked` field of
the outcome.  Each call the engine makes on its provider is appended to a call log, and the
number of ids drawn from the generator is counted, so that statements about which calls an
operation makes can be read off the resulting state.

The `fasthttp` request context is an external library object.  Only the transport surface the
engine uses is modelled: named request cookies, form/query values, request and response
headers, response cookies, the TLS flag and the context address.  Every one of these is a
finite key/value table (`KV`).
-/

set_option autoImplicit false

namespace Fasthttpsession

/-! ## Finite key/value tables -/

/-- A finite table keyed by strings; the first binding of a key is the live one. -/
abbrev KV (α : Type) := List (String × α)

namespace KV

variable {α : Type}

/-- Look a key up. -/
def get? : KV α → String → Option α
  | [], _ => none
  | (k, v) :: m, key => if k = key then some v else get? m key

/-- Remove every binding of a key. -/
def del : KV α → String → KV α
  | [], _ => []
  | (k, v) :: m, key => if k = key then del m key else (k, v) :: del m key

/-- Bind a key, replacing any earlier binding. -/
def set (m : KV α) (key : String) (v : α) : KV α :=
  (key, v) :: del m key

/-- Whether a key is bound. -/
def has (m : KV α) (key : String) : Bool :=
  (get? m key).isSome

end KV

/-! ## config.go -/

/-- The `Config` struct.  `time.Duration` is an integer number of nanoseconds,
`fasthttp.CookieSameSite` an integer code.  The three hook fields are nil-able function values.
A generator is a Go `func() string` with hidden state: it is modelled as the stream of its
successive results, indexed by the number of ids drawn so far.  `defaultSessionIdGenerator`
wraps the external `ksuid` library and is a parameter. -/
structure Config where
  NeedStoreInMap : Bool
  CookieName : String
  Domain : String
  SameSite : Nat
  HTTPOnly : Bool
  Expires : Int
  GCLifetime : Int
  SessionLifetime : Int
  Secure : Bool
  SessionIdInURLQuery : Bool
  SessionNameInUrlQuery : String
  SessionIdInHttpHeader : Bool
  SessionNameInHttpHeader : String
  SessionIdGeneratorFunc : Option (Nat → String)
  EncodeFunc : Option (String → Except String String)
  DecodeFunc : Option (String → Except String String)
  defaultSessionIdGenerator : Nat → String

namespace Config

/-- Go `Config.SessionIdGenerator`: the id drawn when `drawn` ids have been drawn before, and the
new draw count. -/
def SessionIdGenerator (c : Config) (drawn : Nat) : String × Nat :=
  match c.SessionIdGeneratorFunc with
  | none => (c.defaultSessionIdGenerator drawn, drawn + 1)
  | some sessionIdGenerator => (sessionIdGenerator drawn, drawn + 1)

/-- Go `Config.Encode`. -/
def Encode (c : Config) (cookieValue : String) : String :=
  match c.EncodeFunc with
  | some encode =>
    match encode cookieValue with
    | .ok newVal => newVal
    | .error _ => ""
  | none => cookieValue

/-- Go `Config.Decode`. -/
def Decode (c : Config) (cookieValue : String) : String :=
  if cookieValue = "" then ""
  else
    match c.DecodeFunc with
    | some decode =>
      match decode cookieValue with
      | .ok newVal => newVal
      | .error _ => ""
    | none => cookieValue

end Config

/-! ## The transport surface (fasthttp) and cookie.go -/

/-- Expiry of a `fasthttp.Cookie`: never set, `fasthttp.CookieExpireUnlimited`, or an instant. -/
inductive CookieExpire where
  | unset
  | unlimited
  | time (t : Int)
  deriving DecidableEq, Repr

/-- The fields of a `fasthttp.Cookie` that `cookie.go` writes. -/
structure HttpCookie where
  key : String
  value : String
  path : String
  domain : String
  sameSite : Nat
  httpOnly : Bool
  secure : Bool
  expire : CookieExpire
  deriving DecidableEq, Repr

/-- The cookie returned by `fasthttp.AcquireCookie`. -/
def AcquireCookie : HttpCookie :=
  { key := "", value := "", path := "", domain := "", sameSite := 0, httpOnly := false,
    secure := false, expire := .unset }

/-- The part of `*fasthttp.RequestCtx` the engine touches.  `ptr` is the address of the context
object, `formValues` is what `ctx.FormValue` reads (query string, then body and form fields), a
missing key reads as the empty byte slice.  Header and cookie names are compared as they are
written; the normalisation of header names by `fasthttp` is not modelled. -/
structure RequestCtx where
  ptr : Nat
  isTLS : Bool
  reqCookies : KV String
  formValues : KV String
  reqHeaders : KV String
  respHeaders : KV String
  respCookies : KV HttpCookie
  deriving DecidableEq, Repr

namespace RequestCtx

/-- Go `ctx.Request.Header.Cookie(name)`. -/
def RequestCookie (ctx : RequestCtx) (name : String) : String :=
  (ctx.reqCookies.get? name).getD ""

/-- Go `ctx.FormValue(name)`. -/
def FormValue (ctx : RequestCtx) (name : String) : String :=
  (ctx.formValues.get? name).getD ""

/-- Go `ctx.Request.Header.Peek(name)`. -/
def RequestPeek (ctx : RequestCtx) (name : String) : String :=
  (ctx.reqHeaders.get? name).getD ""

end RequestCtx

/-- Go `time.Minute` in nanoseconds. -/
def minute : Int := 60000000000

namespace Cookie

/-- Go `Cookie.Get`. -/
def Get (ctx : RequestCtx) (name : String) : String :=
  let cookieByte := ctx.RequestCookie name
  if cookieByte.length > 0 then cookieByte else ""

/-- Go `Cookie.Set`; `now` is the value of `time.Now()`.  The setters of `fasthttp.Cookie` are
plain field updates here: that `SetSameSite` also sets `Secure` under the `None` mode, and that
an unlimited expiry is rendered like an unset one, is not modelled. -/
def Set (now : Int) (ctx : RequestCtx) (name value domain : String) (expires : Int)
    (secure : Bool) (sameSite : Nat) (httpOnly : Bool) : RequestCtx :=
  let cookie := AcquireCookie
  let cookie := { cookie with key := name }
  let cookie := { cookie with path := "/" }
  let cookie := { cookie with httpOnly := true }
  let cookie := { cookie with domain := domain }
  let cookie := { cookie with sameSite := sameSite }
  let cookie := { cookie with httpOnly := httpOnly }
  let cookie :=
    if expires ≥ 0 then
      let expiredTime := if expires > 0 then CookieExpire.time (now + expires) else .unlimited
      { cookie with expire := expiredTime }
    else cookie
  let cookie := if ctx.isTLS && secure then { cookie with secure := true } else cookie
  let cookie := { cookie with value := value }
  { ctx with respCookies := ctx.respCookies.set cookie.key cookie }

/-- Go `Cookie.Delete`; `now` is the value of `time.Now()`. -/
def Delete (now : Int) (ctx : RequestCtx) (name : String) : RequestCtx :=
  let ctx := { ctx with respCookies := ctx.respCookies.del name }
  let cookie := AcquireCookie
  let cookie := { cookie with key := name }
  let cookie := { cookie with value := "" }
  let cookie := { cookie with path := "/" }
  let cookie := { cookie with httpOnly := true }
  let exp := now + (-1) * minute
  let cookie := { cookie with expire := .time exp }
  let ctx := { ctx with respCookies := ctx.respCookies.set cookie.key cookie }
  { ctx with reqCookies := ctx.reqCookies.del name }

end Cookie

/-! ## session.go: id resolution -/

/-- Go `Session.GetSessionId`; it reads only the config of the session.  The three reads have
no effect, so each guard is written next to the test of the value it guards. -/
def GetSessionId (config : Config) (ctx : RequestCtx) : String :=
  let cookieByte := ctx.RequestCookie config.CookieName
  if cookieByte.length > 0 then config.Decode cookieByte
  else
    let cookieFormValue := ctx.FormValue config.SessionNameInUrlQuery
    if config.SessionIdInURLQuery = true ∧ cookieFormValue.length > 0 then
      config.Decode cookieFormValue
    else
      let cookieHeader := ctx.RequestPeek config.SessionNameInHttpHeader
      if config.SessionIdInHttpHeader = true ∧ cookieHeader.length > 0 then
        config.Decode cookieHeader
      else ""

/-- The sources the specification says are consulted, in order: the transport cookie, the URL
query parameter when enabled, the custom header when enabled. -/
def consultedSources (config : Config) (ctx : RequestCtx) : List String :=
  [ctx.RequestCookie config.CookieName]
    ++ (if config.SessionIdInURLQuery then [ctx.FormValue config.SessionNameInUrlQuery] else [])
    ++ (if config.SessionIdInHttpHeader then [ctx.RequestPeek config.SessionNameInHttpHeader]
        else [])

/-- The specification of id resolution: the first non-empty consulted source, decoded; the
empty string when every consulted source is empty. -/
def resolveSpec (config : Config) (ctx : RequestCtx) : String :=
  match (consultedSources config ctx).find? (fun raw => decide (raw ≠ "")) with
  | some raw => config.Decode raw
  | none => ""

/-! ## session.go: the engine -/

/-- Modelled from the spec: the `SessionStore` interface, whose declaration is missing: the
decoded key/value contents of one session, tagged with its id. -/
structure SessionStore where
  sessionId : String
  data : KV String
  deriving DecidableEq, Repr

/-- Modelled from the spec: the `Provider` interface, whose declaration is missing; its seven
methods are those of the backend contract.  A provider is a stateful Go object; `σ` is the type
of the state behind it (connections, records) and every method is a function on that state.
`κ` is the type of the backend configuration handed to `Init`.  A method returning
`(SessionStore, error)` returns both components, as in Go.  The methods that read the clock
take the value of `time.Now()` as their first argument. -/
structure Provider (σ κ : Type) where
  Init : Int → κ → σ → Option String × σ
  NeedGC : σ → Bool
  GC : Int → σ → σ
  ReadStore : Int → String → σ → (Option SessionStore × Option String) × σ
  Regenerate : Int → String → String → σ → (Option SessionStore × Option String) × σ
  Destroy : String → σ → Option String × σ
  Count : σ → Int

/-- A record of one call the engine made on its provider. -/
inductive ProviderCall where
  | Init (lifeTime : Int)
  | GC
  | ReadStore (sessionId : String)
  | Regenerate (oldSessionId sessionId : String)
  | Destroy (sessionId : String)
  deriving DecidableEq, Repr

/-- The `Session` struct: the active provider (nil until `SetProvider` succeeds) and the
config.  The `cookie` field is a stateless helper and the `ccmap` field is mutable shared state,
carried in `World`. -/
structure Session (σ κ : Type) where
  provider : Option (Provider σ κ)
  config : Config

/-- Everything an engine call can change besides the request context: the state behind the
provider, the number of ids drawn from the generator, the per-request cache `ccmap`, the log of
provider calls and the number of sweep goroutines started. -/
structure World (σ : Type) where
  backend : σ
  drawn : Nat
  ccmap : KV (Option SessionStore)
  calls : List ProviderCall
  gcTasks : Nat

/-- What `Start` and `Regenerate` return, with the request context and world they leave. -/
structure Outcome (σ : Type) where
  sessionStore : Option SessionStore
  err : Option String
  ctx : RequestCtx
  world : World σ

/-- Go `getCtxPointer`: the context address printed with `%x` after `0x`. -/
def getCtxPointer (ctx : RequestCtx) : String :=
  "0x" ++ String.mk (Nat.toDigits 16 ctx.ptr)

/-- Go `Session.GetSessionStoreWithCtx`.  The type assertion `tmp.(SessionStore)` panics on a nil
interface value. -/
def GetSessionStoreWithCtx {σ κ : Type} (s : Session σ κ) (ctx : RequestCtx) (w : World σ) :
    Except String (Option SessionStore × Option String) :=
  if s.config.NeedStoreInMap = false then
    .ok (none, some "Not support this method in constructor")
  else
    match w.ccmap.get? (getCtxPointer ctx) with
    | some (some tmp) => .ok (some tmp, none)
    | some none => .error "interface conversion: interface is nil, not SessionStore"
    | none => .ok (none, some "Session store is empty")

/-- Go `Session.SetSessionStoreWithCtx`. -/
def SetSessionStoreWithCtx {σ κ : Type} (_s : Session σ κ) (ctx : RequestCtx)
    (sessionStore : Option SessionStore) (w : World σ) : World σ :=
  { w with ccmap := w.ccmap.set (getCtxPointer ctx) sessionStore }

/-- Go `Session.RemoveSessionStoreWithCtx`. -/
def RemoveSessionStoreWithCtx {σ κ : Type} (s : Session σ κ) (ctx : RequestCtx) (w : World σ) :
    Bool × World σ :=
  if s.config.NeedStoreInMap = false then (true, w)
  else
    let ctxStr := getCtxPointer ctx
    let ok := w.ccmap.has ctxStr
    if ok then (true, { w with ccmap := w.ccmap.del ctxStr })
    else (false, w)

/-- The closing block shared verbatim by `Start` (lines 172 to 191) and `Regenerate` (lines 248
to 268): set the response cookie, mirror the id into the headers when header transport is on,
cache the store when caching is on, return the store without error. -/
def reissue {σ κ : Type} (s : Session σ κ) (now : Int) (ctx : RequestCtx) (w : World σ)
    (sessionId encodeCookieValue : String) (sessionStore : Option SessionStore) : Outcome σ :=
  let ctx := Cookie.Set now ctx s.config.CookieName encodeCookieValue s.config.Domain
    s.config.Expires s.config.Secure s.config.SameSite s.config.HTTPOnly
  let ctx :=
    if s.config.SessionIdInHttpHeader then
      { ctx with
        reqHeaders := ctx.reqHeaders.set s.config.SessionNameInHttpHeader sessionId
        respHeaders := ctx.respHeaders.set s.config.SessionNameInHttpHeader sessionId }
    else ctx
  let w := if s.config.NeedStoreInMap then SetSessionStoreWithCtx s ctx sessionStore w else w
  { sessionStore := sessionStore, err := none, ctx := ctx, world := w }

/-- Lines 163 to 191 of `Start`: read the provider store for a settled id, then re-issue. -/
def Start.read {σ κ : Type} (s : Session σ κ) (provider : Provider σ κ) (now : Int)
    (ctx : RequestCtx) (w : World σ) (sessionId : String) : Outcome σ :=
  let r := provider.ReadStore now sessionId w.backend
  let w := { w with backend := r.2, calls := w.calls ++ [ProviderCall.ReadStore sessionId] }
  match r.1.2 with
  | some err =>
    { sessionStore := r.1.1, err := some ("Error when read session data : " ++ err),
      ctx := ctx, world := w }
  | none =>
    let encodeCookieValue := s.config.Encode sessionId
    reissue s now ctx w sessionId encodeCookieValue r.1.1

/-- Go `Session.Start`; `now` is the value of `time.Now()` during the call. -/
def Start {σ κ : Type} (s : Session σ κ) (now : Int) (ctx : RequestCtx) (w : World σ) :
    Outcome σ :=
  match s.provider with
  | none =>
    { sessionStore := none, err := some "session start error, not set provider",
      ctx := ctx, world := w }
  | some provider =>
    let sessionId := GetSessionId s.config ctx
    if sessionId = "" then
      let g := s.config.SessionIdGenerator w.drawn
      let sessionId := g.1
      let w := { w with drawn := g.2 }
      if sessionId = "" then
        { sessionStore := none, err := some "session generator sessionId is empty",
          ctx := ctx, world := w }
      else Start.read s provider now ctx w sessionId
    else Start.read s provider now ctx w sessionId

/-- Go `Session.Regenerate`; `now` is the value of `time.Now()` during the call. -/
def Regenerate {σ κ : Type} (s : Session σ κ) (now : Int) (ctx : RequestCtx) (w : World σ) :
    Outcome σ :=
  match s.provider with
  | none =>
    { sessionStore := none, err := some "session regenerate error, not set provider",
      ctx := ctx, world := w }
  | some provider =>
    let g := s.config.SessionIdGenerator w.drawn
    let sessionId := g.1
    let w := { w with drawn := g.2 }
    if sessionId = "" then
      { sessionStore := none, err := some "session generator sessionId is empty",
        ctx := ctx, world := w }
    else
      let encodeCookieValue := s.config.Encode sessionId
      let oldSessionId := GetSessionId s.config ctx
      let r :=
        if oldSessionId ≠ "" then provider.Regenerate now oldSessionId sessionId w.backend
        else provider.ReadStore now sessionId w.backend
      let call :=
        if oldSessionId ≠ "" then ProviderCall.Regenerate oldSessionId sessionId
        else ProviderCall.ReadStore sessionId
      let w := { w with backend := r.2, calls := w.calls ++ [call] }
      match r.1.2 with
      | some err =>
        { sessionStore := r.1.1, err := some ("Error when read session data : " ++ err),
          ctx := ctx, world := w }
      | none => reissue s now ctx w sessionId encodeCookieValue r.1.1

/-- What `Destroy` leaves: it returns no value; `panicked` is set when the call ends in a
run-time panic (a method call on the nil provider). -/
structure DestroyOutcome (σ : Type) where
  panicked : Option String
  ctx : RequestCtx
  world : World σ

/-- The header block of `Destroy` (lines 277 to 281): delete the header on the request and on
the response when header transport is on. -/
def Destroy.dropHeader {σ κ : Type} (s : Session σ κ) (ctx : RequestCtx) : RequestCtx :=
  if s.config.SessionIdInHttpHeader then
    { ctx with
      reqHeaders := ctx.reqHeaders.del s.config.SessionNameInHttpHeader
      respHeaders := ctx.respHeaders.del s.config.SessionNameInHttpHeader }
  else ctx

/-- The deferred call of `Destroy` (lines 273 to 275), run when the function leaves. -/
def Destroy.deferred {σ κ : Type} (s : Session σ κ) (ctx : RequestCtx) (w : World σ) :
    World σ :=
  if s.config.NeedStoreInMap then (RemoveSessionStoreWithCtx s ctx w).2 else w

/-- Go `Session.Destroy`; `now` is the value of `time.Now()` during the call.  The deferred
`RemoveSessionStoreWithCtx` runs when the function leaves, on every path.  The error that
`Provider.Destroy` returns is not bound to anything. -/
def Destroy {σ κ : Type} (s : Session σ κ) (now : Int) (ctx : RequestCtx) (w : World σ) :
    DestroyOutcome σ :=
  let ctx := Destroy.dropHeader s ctx
  let cookieValue := Cookie.Get ctx s.config.CookieName
  if cookieValue = "" then
    { panicked := none, ctx := ctx, world := Destroy.deferred s ctx w }
  else
    let sessionId := s.config.Decode cookieValue
    match s.provider with
    | none =>
      { panicked := some "invalid memory address or nil pointer dereference",
        ctx := ctx, world := Destroy.deferred s ctx w }
    | some provider =>
      let r := provider.Destroy sessionId w.backend
      let w := { w with backend := r.2, calls := w.calls ++ [ProviderCall.Destroy sessionId] }
      let ctx := Cookie.Delete now ctx s.config.CookieName
      { panicked := none, ctx := ctx, world := Destroy.deferred s ctx w }

/-- The constant `defaultCookieName`. -/
def defaultCookieName : String := "_fssid_"

/-- The constant `defaultExpires`, five hours in nanoseconds. -/
def defaultExpires : Int := 5 * 60 * minute

/-- The constant `defaultGCLifetime`. -/
def defaultGCLifetime : Int := 3

/-- The constant `fasthttp.CookieSameSiteLaxMode`. -/
def CookieSameSiteLaxMode : Nat := 2

/-- Go `NewDefaultConfig`; `ksuid` is the stream of ids of the external `ksuid` library. -/
def NewDefaultConfig (ksuid : Nat → String) : Config :=
  { CookieName := defaultCookieName
    Domain := ""
    Expires := defaultExpires
    GCLifetime := defaultGCLifetime
    SessionLifetime := 60
    Secure := true
    SameSite := CookieSameSiteLaxMode
    HTTPOnly := true
    SessionIdInURLQuery := false
    SessionNameInUrlQuery := ""
    SessionIdInHttpHeader := false
    SessionNameInHttpHeader := ""
    NeedStoreInMap := true
    SessionIdGeneratorFunc := some ksuid
    EncodeFunc := none
    DecodeFunc := none
    defaultSessionIdGenerator := ksuid }

/-- Go `NewSession`: fill in the defaults of the config; no provider is active yet. -/
def NewSession {σ κ : Type} (cfg : Config) : Session σ κ :=
  let cfg := if cfg.CookieName = "" then { cfg with CookieName := defaultCookieName } else cfg
  let cfg := if cfg.GCLifetime = 0 then { cfg with GCLifetime := defaultGCLifetime } else cfg
  let cfg :=
    if cfg.SessionLifetime = 0 then { cfg with SessionLifetime := cfg.GCLifetime } else cfg
  let cfg :=
    if cfg.SessionIdGeneratorFunc.isNone then
      { cfg with SessionIdGeneratorFunc := some cfg.defaultSessionIdGenerator }
    else cfg
  { config := cfg, provider := none }

/-- The world of a new engine over a given backend state: `cmap.New()` is empty, nothing has
been drawn, called or started. -/
def World.new {σ : Type} (backend : σ) : World σ :=
  { backend := backend, drawn := 0, ccmap := [], calls := [], gcTasks := 0 }

/-- What `SetProvider` returns and leaves; `panicked` is set when the registry holds a nil
provider under the name. -/
structure SetProviderOutcome (σ κ : Type) where
  err : Option String
  panicked : Option String
  session : Session σ κ
  world : World σ

/-- Go `Session.SetProvider` against the registry `providers`.  Starting the sweep goroutine is
counted in `gcTasks`. -/
def SetProvider {σ κ : Type} (providers : KV (Option (Provider σ κ))) (s : Session σ κ)
    (providerName : String) (providerConfig : κ) (w : World σ) : SetProviderOutcome σ κ :=
  match providers.get? providerName with
  | none =>
    { err := some ("session set provider error, " ++ providerName ++ " not registered!"),
      panicked := none, session := s, world := w }
  | some none =>
    { err := none, panicked := some "invalid memory address or nil pointer dereference",
      session := s, world := w }
  | some (some provider) =>
    let r := provider.Init s.config.SessionLifetime providerConfig w.backend
    let w := { w with backend := r.2,
                      calls := w.calls ++ [ProviderCall.Init s.config.SessionLifetime] }
    match r.1 with
    | some err => { err := some err, panicked := none, session := s, world := w }
    | none =>
      let s := { s with provider := some provider }
      let w := if provider.NeedGC w.backend then { w with gcTasks := w.gcTasks + 1 } else w
      { err := none, panicked := none, session := s, world := w }

/-- A sequence of `SetProvider` calls on one session, each given by a provider name and a
backend configuration: the session and world the last call leaves. -/
def SetProvider.sequence {σ κ : Type} (providers : KV (Option (Provider σ κ))) :
    Session σ κ → World σ → List (String × κ) → Session σ κ × World σ
  | s, w, [] => (s, w)
  | s, w, call :: rest =>
    SetProvider.sequence providers (SetProvider providers s call.1 call.2 w).session
      (SetProvider providers s call.1 call.2 w).world rest

/-- Whether a `SetProvider` call succeeded with a provider whose `NeedGC()` is true, read off
what the call returned and left. -/
def SetProvider.succeededNeedingGC {σ κ : Type} (o : SetProviderOutcome σ κ) : Bool :=
  o.err.isNone && o.panicked.isNone &&
    (match o.session.provider with
     | some provider => provider.NeedGC o.world.backend
     | none => false)

/-- The number of calls of a sequence of `SetProvider` calls that succeeded with a provider
whose `NeedGC()` is true. -/
def SetProvider.successesNeedingGC {σ κ : Type} (providers : KV (Option (Provider σ κ))) :
    Session σ κ → World σ → List (String × κ) → Nat
  | _, _, [] => 0
  | s, w, call :: rest =>
    (if SetProvider.succeededNeedingGC (SetProvider providers s call.1 call.2 w) then 1 else 0)
      + SetProvider.successesNeedingGC providers
          (SetProvider providers s call.1 call.2 w).session
          (SetProvider providers s call.1 call.2 w).world rest

/-! ## session.go: the provider registry -/

/-- Indexing a Go map of interface values: the zero value `nil` when the key is absent. -/
def KV.index {P : Type} (m : KV (Option P)) (key : String) : Option P :=
  (m.get? key).getD none

/-- Go `Register` on the package-level map `providers`: the panic message, if the call panics,
and the map the call leaves. -/
def Register {P : Type} (providers : KV (Option P)) (providerName : String)
    (provider : Option P) : Option String × KV (Option P) :=
  if (providers.index providerName).isSome then
    (some ("session register error, provider " ++ providerName ++ " already registered!"),
      providers)
  else if provider.isNone then
    (some ("session register error, provider " ++ providerName ++ " is nil!"), providers)
  else
    (none, providers.set providerName provider)

/-- The registries the program can reach: `providers` starts empty and only `Register` writes
to it. -/
inductive Registered {P : Type} : KV (Option P) → Prop where
  | empty : Registered []
  | register (providers : KV (Option P)) (providerName : String) (provider : Option P) :
      Registered providers → Registered (Register providers providerName provider).2

/-- An error message preserves a cause when the cause occurs in it as a contiguous piece. -/
def Mentions (message cause : String) : Prop :=
  ∃ before after : String, message = before ++ cause ++ after

/-! ## postgres/provider.go -/

namespace postgres

/-- The constant `ProviderName`. -/
def ProviderName : String := "postgres"

/-- One row of the `session` table (see the schema comment at the head of `provider.go`):
the `contents` and `last_active` columns; the key column `session_id` is the table key. -/
structure Row where
  contents : String
  last_active : Int
  deriving DecidableEq, Repr

/-- Modelled from the spec: the data-access object `sessionDao` of the postgres backend, whose
source file is missing.  It stands for the connection together with the
`session` table behind it: a record keyed by session id holding serialized contents and a
last-active timestamp.  `faults` lists the outcome of the coming database round trips, oldest
first: `some e` makes the round trip fail with the error `e` and leave the table as it is,
`none` (or an exhausted list) lets it through. -/
structure sessionDao where
  table : KV Row
  faults : List (Option String)
  deriving DecidableEq, Repr

namespace sessionDao

/-- Modelled from the spec: one database round trip consumes the next announced outcome. -/
def roundTrip (sd : sessionDao) : Option String × sessionDao :=
  match sd.faults with
  | [] => (none, sd)
  | f :: rest => (f, { sd with faults := rest })

/-- Modelled from the spec: `getSessionBySessionId` returns the row stored under the id, or an
empty result when there is none. -/
def getSessionBySessionId (sd : sessionDao) (sessionId : String) :
    (Option Row × Option String) × sessionDao :=
  match sd.roundTrip with
  | (some e, sd) => ((none, some e), sd)
  | (none, sd) => ((sd.table.get? sessionId, none), sd)

/-- Modelled from the spec: `insert` adds a row; `session_id` is the primary key of the table,
so inserting a second row under a key that has one is refused by the database. -/
def insert (sd : sessionDao) (sessionId contents : String) (lastActive : Int) :
    Option String × sessionDao :=
  match sd.roundTrip with
  | (some e, sd) => (some e, sd)
  | (none, sd) =>
    if sd.table.has sessionId then
      (some "duplicate key value violates unique constraint", sd)
    else
      (none, { sd with table := sd.table.set sessionId { contents := contents,
                                                         last_active := lastActive } })

/-- Modelled from the spec: `deleteBySessionId` deletes the row of the id if there is one. -/
def deleteBySessionId (sd : sessionDao) (sessionId : String) : Option String × sessionDao :=
  match sd.roundTrip with
  | (some e, sd) => (some e, sd)
  | (none, sd) => (none, { sd with table := sd.table.del sessionId })

/-- Modelled from the spec: `deleteSessionByMaxLifeTime` deletes the rows whose last-active
timestamp is strictly older than `unixNow - maxLifeTime`. -/
def deleteSessionByMaxLifeTime (sd : sessionDao) (unixNow maxLifeTime : Int) : sessionDao :=
  match sd.roundTrip with
  | (some _, sd) => sd
  | (none, sd) =>
    { sd with
      table := sd.table.filter (fun r => decide (unixNow - maxLifeTime ≤ r.2.last_active)) }

/-- Modelled from the spec: `countSessions` is the number of rows. -/
def countSessions (sd : sessionDao) : Int :=
  sd.table.length

/-- Modelled from the spec: `newSessionDao` opens a connection to the database, one round
trip; the rows in the database are those already there. -/
def newSessionDao (sd : sessionDao) : Option String × sessionDao :=
  sd.roundTrip

/-- Modelled from the spec: `postgresConn.Ping` is one round trip. -/
def Ping (sd : sessionDao) : Option String × sessionDao :=
  sd.roundTrip

end sessionDao

/-- Modelled from the spec: the postgres `Config`, whose declaration is missing; these are the
fields `provider.go` reads.  `Name` is the result of the `Name()` method.  The two serialize
hooks are nil-able function values. -/
structure Config where
  Name : String
  Host : String
  Port : Int
  Database : String
  TableName : String
  SetMaxIdleConn : Int
  SerializeFunc : Option (KV String → Except String String)
  UnSerializeFunc : Option (String → Except String (KV String))

/-- The postgres `Provider` struct.  The `values` field is not used by `provider.go`. -/
structure Provider where
  config : Config
  sessionDao : sessionDao
  maxLifeTime : Int

/-- Modelled from the spec: `NewPostgresStore`, a fresh (empty) store tagged with the id. -/
def NewPostgresStore (sessionId : String) : SessionStore :=
  { sessionId := sessionId, data := [] }

/-- Modelled from the spec: `NewPostgresStoreData`, a store populated with decoded contents. -/
def NewPostgresStoreData (sessionId : String) (data : KV String) : SessionStore :=
  { sessionId := sessionId, data := data }

/-- Go `time.Now().Unix()` for a clock reading in nanoseconds. -/
def unix (now : Int) : Int := now / 1000000000

/-- Go `Provider.Init`.  `base64Encode` and `base64Decode` are the defaults `encrypt.Base64Encode`
and `encrypt.Base64Decode` of the parent package. -/
def Init (base64Encode : KV String → Except String String)
    (base64Decode : String → Except String (KV String))
    (lifeTime : Int) (postgresConfig : Config) (pp : Provider) : Option String × Provider :=
  if postgresConfig.Name ≠ ProviderName then
    (some "session postgres provider init error, config must postgres config", pp)
  else
    let pp := { pp with config := postgresConfig }
    let pp := { pp with maxLifeTime := lifeTime }
    if pp.config.Host = "" then
      (some "session postgres provider init error, config Host not empty", pp)
    else if pp.config.Port = 0 then
      (some "session postgres provider init error, config Port not empty", pp)
    else
      let pp :=
        if pp.config.SerializeFunc.isNone then
          { pp with config := { pp.config with SerializeFunc := some base64Encode } }
        else pp
      let pp :=
        if pp.config.UnSerializeFunc.isNone then
          { pp with config := { pp.config with UnSerializeFunc := some base64Decode } }
        else pp
      let opened := pp.sessionDao.newSessionDao
      let pp := { pp with sessionDao := opened.2 }
      match opened.1 with
      | some err => (some err, pp)
      | none =>
        let r := pp.sessionDao.Ping
        (r.1, { pp with sessionDao := r.2 })

/-- Go `Provider.NeedGC`. -/
def NeedGC (_pp : Provider) : Bool := true

/-- Go `Provider.GC`. -/
def GC (now : Int) (pp : Provider) : Provider :=
  { pp with sessionDao := pp.sessionDao.deleteSessionByMaxLifeTime (unix now) pp.maxLifeTime }

/-- Go `Provider.ReadStore`.  Calling the nil `UnSerializeFunc` of a provider whose `Init` did
not complete is a run-time panic, `Except.error`. -/
def ReadStore (now : Int) (sessionId : String) (pp : Provider) :
    Except String ((Option SessionStore × Option String) × Provider) :=
  let g := pp.sessionDao.getSessionBySessionId sessionId
  let pp := { pp with sessionDao := g.2 }
  match g.1.2 with
  | some err => .ok ((none, some err), pp)
  | none =>
    match g.1.1 with
    | none =>
      let i := pp.sessionDao.insert sessionId "" (unix now)
      let pp := { pp with sessionDao := i.2 }
      match i.1 with
      | some err => .ok ((none, some err), pp)
      | none => .ok ((some (NewPostgresStore sessionId), none), pp)
    | some sessionValue =>
      if sessionValue.contents.length = 0 then
        .ok ((some (NewPostgresStore sessionId), none), pp)
      else
        match pp.config.UnSerializeFunc with
        | none => .error "invalid memory address or nil pointer dereference"
        | some unSerializeFunc =>
          match unSerializeFunc sessionValue.contents with
          | .error err => .ok ((none, some err), pp)
          | .ok data => .ok ((some (NewPostgresStoreData sessionId data), none), pp)

/-- Go `Provider.Regenerate`. -/
def Regenerate (now : Int) (oldSessionId sessionId : String) (pp : Provider) :
    Except String ((Option SessionStore × Option String) × Provider) :=
  let g := pp.sessionDao.getSessionBySessionId oldSessionId
  let pp := { pp with sessionDao := g.2 }
  match g.1.2 with
  | some err => .ok ((none, some err), pp)
  | none =>
    match g.1.1 with
    | none =>
      let i := pp.sessionDao.insert sessionId "" (unix now)
      let pp := { pp with sessionDao := i.2 }
      match i.1 with
      | some err => .ok ((none, some err), pp)
      | none => .ok ((some (NewPostgresStore sessionId), none), pp)
    | some sessionValue =>
      let d := pp.sessionDao.deleteBySessionId oldSessionId
      let pp := { pp with sessionDao := d.2 }
      match d.1 with
      | some err => .ok ((none, some err), pp)
      | none =>
        let i := pp.sessionDao.insert sessionId sessionValue.contents (unix now)
        let pp := { pp with sessionDao := i.2 }
        match i.1 with
        | some err => .ok ((none, some err), pp)
        | none => ReadStore now sessionId pp

/-- Go `Provider.Destroy`. -/
def Destroy (sessionId : String) (pp : Provider) : Option String × Provider :=
  let d := pp.sessionDao.deleteBySessionId sessionId
  (d.1, { pp with sessionDao := d.2 })

/-- Go `Provider.Count`. -/
def Count (pp : Provider) : Int :=
  pp.sessionDao.countSessions

/-- Go `NewProvider`: the zero config and an empty data-access object. -/
def NewProvider : Provider :=
  { config := { Name := "", Host := "", Port := 0, Database := "", TableName := "",
                SetMaxIdleConn := 0, SerializeFunc := none, UnSerializeFunc := none },
    sessionDao := { table := [], faults := [] },
    maxLifeTime := 0 }

/-- The package-level value `provider` seen through the `Provider` interface of the engine.
The interface has no channel for a run-time panic: a panicking `ReadStore` or `Regenerate` is
shown as a failed call that leaves the provider as it was. -/
def provider (base64Encode : KV String → Except String String)
    (base64Decode : String → Except String (KV String)) :
    Fasthttpsession.Provider Provider Config where
  Init := Init base64Encode base64Decode
  NeedGC := NeedGC
  GC := GC
  ReadStore now sessionId pp :=
    match ReadStore now sessionId pp with
    | .ok r => r
    | .error e => ((none, some e), pp)
  Regenerate now oldSessionId sessionId pp :=
    match Regenerate now oldSessionId sessionId pp with
    | .ok r => r
    | .error e => ((none, some e), pp)
  Destroy := Destroy
  Count := Count

end postgres

/-! ## Concrete inputs used to exercise the statements -/

namespace Sample

/-- A generator stream: `sid-a` first, `sid-b` ever after. -/
def ids : Nat → String := fun n => if n = 0 then "sid-a" else "sid-b"

/-- A stand-in for `encrypt.Base64Encode`. -/
def encode : KV String → Except String String := fun m =>
  .ok (String.join (m.map (fun e => e.1 ++ "=" ++ e.2 ++ ";")))

/-- A stand-in for `encrypt.Base64Decode`: the whole text under one key. -/
def decode : String → Except String (KV String) := fun text => .ok [("raw", text)]

/-- An initialised postgres provider over a table with one session, `old-1`. -/
def backend : postgres.Provider :=
  { config := { Name := "postgres", Host := "localhost", Port := 5432, Database := "app",
                TableName := "session", SetMaxIdleConn := 4,
                SerializeFunc := some encode, UnSerializeFunc := some decode },
    sessionDao := { table := [("old-1", { contents := "cart=3;", last_active := 100 })],
                    faults := [] },
    maxLifeTime := 60 }

/-- What `Regenerate("old-1", "sid-a")` returns and leaves on the sample provider. -/
def moved : (Option SessionStore × Option String) × postgres.Provider :=
  ((some { sessionId := "sid-a", data := [("raw", "cart=3;")] }, none),
    { backend with
      sessionDao := { table := [("sid-a", { contents := "cart=3;", last_active := 0 })],
                      faults := [] } })

/-- The same provider in front of a database whose next round trip fails. -/
def brokenBackend : postgres.Provider :=
  { backend with sessionDao := { backend.sessionDao with faults := [some "connection refused"] } }

/-- The default config with the sample generator. -/
def config : Config := NewDefaultConfig ids

/-- A decode hook that accepts the token `old-1` and rejects every other one. -/
def strictDecode : String → Except String String := fun v =>
  if v = "old-1" then .ok v else .error "malformed token"

/-- An engine with the postgres provider active. -/
def session : Session postgres.Provider postgres.Config :=
  { provider := some (postgres.provider encode decode), config := config }

/-- The same engine with the strict decode hook. -/
def strictSession : Session postgres.Provider postgres.Config :=
  { session with config := { config with DecodeFunc := some strictDecode } }

/-- The engine with per-request caching switched off (`ChangeNeedStoreInMap(false)`). -/
def uncachedSession : Session postgres.Provider postgres.Config :=
  { session with config := { config with NeedStoreInMap := false } }

/-- A store to put in the cache. -/
def store : SessionStore := { sessionId := "old-1", data := [("raw", "cart=3;")] }

/-- An engine on which `SetProvider` was never called. -/
def bareSession : Session postgres.Provider postgres.Config := NewSession config

/-- A request without any token. -/
def anonymous : RequestCtx :=
  { ptr := 49152, isTLS := true, reqCookies := [], formValues := [], reqHeaders := [],
    respHeaders := [], respCookies := [] }

/-- A request presenting the cookie of session `old-1`. -/
def returning : RequestCtx :=
  { anonymous with reqCookies := [("_fssid_", "old-1")] }

/-- A request presenting a cookie the strict decode hook rejects. -/
def garbled : RequestCtx :=
  { anonymous with reqCookies := [("_fssid_", "%%%")] }

/-- The world of a fresh engine over the sample backend. -/
def world : World postgres.Provider := World.new backend

/-- The same world in front of the database whose next round trip fails. -/
def brokenWorld : World postgres.Provider := World.new brokenBackend

/-- The registry after the postgres package has registered its provider. -/
def registry : KV (Option (Provider postgres.Provider postgres.Config)) :=
  (Register [] postgres.ProviderName (some (postgres.provider encode decode))).2

/-- An encode hook that puts the tag `enc:` in front of the id. -/
def tagEncode : String → Except String String := fun v =>
  .ok (String.mk ('e' :: 'n' :: 'c' :: ':' :: v.data))

/-- A decode hook that takes the tag `enc:` off and rejects a value without it. -/
def tagDecode : String → Except String String := fun v =>
  match v.data with
  | 'e' :: 'n' :: 'c' :: ':' :: rest => .ok (String.mk rest)
  | _ => .error "malformed token"

/-- The default config with header transport on, under the name `X-Session-Id`, and the tag
hooks. -/
def headerConfig : Config :=
  { config with
    SessionIdInHttpHeader := true
    SessionNameInHttpHeader := "X-Session-Id"
    EncodeFunc := some tagEncode
    DecodeFunc := some tagDecode }

/-- The engine with the postgres provider active and the header config. -/
def headerSession : Session postgres.Provider postgres.Config :=
  { session with config := headerConfig }

/-- Two `SetProvider("postgres", config)` calls in a row. -/
def twoCalls : List (String × postgres.Config) :=
  [("postgres", backend.config), ("postgres", backend.config)]

/-- A backend configuration `Init` refuses: no host, and no serialize hooks of its own. -/
def badConfig : postgres.Config :=
  { backend.config with Host := "", SerializeFunc := none, UnSerializeFunc := none }

/-- What a first, successful `SetProvider("postgres", config)` returns and leaves. -/
def afterFirst : SetProviderOutcome postgres.Provider postgres.Config :=
  SetProvider registry bareSession "postgres" backend.config world

/-- What a second `SetProvider("postgres", badConfig)` on the same session returns and leaves;
its `Init` fails. -/
def afterFailed : SetProviderOutcome postgres.Provider postgres.Config :=
  SetProvider registry afterFirst.session "postgres" badConfig afterFirst.world

end Sample

/-! ## Basic facts -/

theorem length_pos_iff_ne_empty (s : String) : s.length > 0 ↔ s ≠ "" := by
  constructor
  · intro h hs
    subst hs
    simp at h
  · intro h
    rcases s with ⟨l⟩
    cases l with
    | nil => exact absurd rfl h
    | cons c t => simp [String.length]

/-! ## Facts about tables -/

theorem KV.get?_del_same {α : Type} (m : KV α) (key : String) :
    (m.del key).get? key = none := by
  induction m with
  | nil => rfl
  | cons e m ih =>
    obtain ⟨k, v⟩ := e
    by_cases h : k = key
    · simp [KV.del, h, ih]
    · simp [KV.del, KV.get?, h, ih]

theorem KV.get?_del_other {α : Type} (m : KV α) (key other : String) (h : other ≠ key) :
    (m.del key).get? other = m.get? other := by
  induction m with
  | nil => rfl
  | cons e m ih =>
    obtain ⟨k, v⟩ := e
    by_cases hk : k = key
    · subst hk
      have hko : ¬ k = other := fun hko => h hko.symm
      simp [KV.del, KV.get?, hko, ih]
    · by_cases hko : k = other
      · subst hko
        simp [KV.del, KV.get?, hk]
      · simp [KV.del, KV.get?, hk, hko, ih]

theorem KV.del_of_get?_none {α : Type} (m : KV α) (key : String) (h : m.get? key = none) :
    m.del key = m := by
  induction m with
  | nil => rfl
  | cons e m ih =>
    obtain ⟨k, v⟩ := e
    by_cases hk : k = key
    · simp [KV.get?, hk] at h
    · simp only [KV.get?, hk, if_false] at h
      simp [KV.del, hk, ih h]

theorem KV.del_del {α : Type} (m : KV α) (key : String) :
    (m.del key).del key = m.del key :=
  KV.del_of_get?_none _ _ (KV.get?_del_same m key)

theorem KV.get?_set_same {α : Type} (m : KV α) (key : String) (v : α) :
    (m.set key v).get? key = some v := by
  simp [KV.set, KV.get?]

theorem KV.get?_set_other {α : Type} (m : KV α) (key other : String) (v : α)
    (h : other ≠ key) : (m.set key v).get? other = m.get? other := by
  have hk : ¬ key = other := fun hk => h hk.symm
  simp [KV.set, KV.get?, hk, KV.get?_del_other m key other h]

/-! ## Facts about the closing block of `Start` and `Regenerate` -/

section Reissue

variable {σ κ : Type} (s : Session σ κ) (now : Int) (ctx : RequestCtx) (w : World σ)
  (sessionId encodeCookieValue : String) (sessionStore : Option SessionStore)

theorem reissue_world_drawn :
    (reissue s now ctx w sessionId encodeCookieValue sessionStore).world.drawn = w.drawn := by
  unfold reissue SetSessionStoreWithCtx
  by_cases h : s.config.NeedStoreInMap <;> simp [h]

theorem reissue_world_calls :
    (reissue s now ctx w sessionId encodeCookieValue sessionStore).world.calls = w.calls := by
  unfold reissue SetSessionStoreWithCtx
  by_cases h : s.config.NeedStoreInMap <;> simp [h]

theorem reissue_world_backend :
    (reissue s now ctx w sessionId encodeCookieValue sessionStore).world.backend
      = w.backend := by
  unfold reissue SetSessionStoreWithCtx
  by_cases h : s.config.NeedStoreInMap <;> simp [h]

theorem reissue_sessionStore :
    (reissue s now ctx w sessionId encodeCookieValue sessionStore).sessionStore
      = sessionStore := rfl

theorem reissue_err :
    (reissue s now ctx w sessionId encodeCookieValue sessionStore).err = none := rfl

theorem reissue_cookie_value :
    ((reissue s now ctx w sessionId encodeCookieValue sessionStore).ctx.respCookies.get?
        s.config.CookieName).map (fun c => c.value) = some encodeCookieValue := by
  unfold reissue Cookie.Set
  by_cases h : s.config.SessionIdInHttpHeader <;>
    by_cases h1 : s.config.Expires ≥ 0 <;>
    by_cases h2 : (ctx.isTLS && s.config.Secure) = true <;>
    simp [h, h1, h2, KV.get?_set_same, AcquireCookie]

end Reissue

/-- C1. `GetSessionId` checks the cookie, then (if enabled) the URL query parameter, then (if
enabled) the custom header: its result is `Decode` of the first consulted source whose raw value
is non-empty, and the empty string when all consulted sources are empty. -/
theorem getSessionId_first_nonempty_source (config : Config) (ctx : RequestCtx) :
    GetSessionId config ctx = resolveSpec config ctx := by
  unfold GetSessionId resolveSpec consultedSources
  simp only [length_pos_iff_ne_empty]
  by_cases h1 : ctx.RequestCookie config.CookieName = ""
  · by_cases hq : config.SessionIdInURLQuery
    · by_cases h2 : ctx.FormValue config.SessionNameInUrlQuery = ""
      · by_cases hh : config.SessionIdInHttpHeader
        · by_cases h3 : ctx.RequestPeek config.SessionNameInHttpHeader = ""
          · simp [h1, hq, h2, hh, h3]
          · simp [h1, hq, h2, hh, h3]
        · simp [h1, hq, h2, hh]
      · simp [h1, hq, h2]
    · by_cases hh : config.SessionIdInHttpHeader
      · by_cases h3 : ctx.RequestPeek config.SessionNameInHttpHeader = ""
        · simp [h1, hq, hh, h3]
        · simp [h1, hq, hh, h3]
      · simp [h1, hq, hh]
  · simp [h1]

/-- C2. With an active provider and a request carrying no token, `Start` draws one id from
`Config.SessionIdGenerator`; when that id is empty it fails with an error, returns no store and
makes no provider call; otherwise its only provider call is `ReadStore` on exactly the generated
id, it returns what that call returned, and on success the cookie it issues carries the encoded
generated id, which is non-empty. -/
theorem start_without_token_reads_generated_id {σ κ : Type} (s : Session σ κ)
    (p : Provider σ κ) (now : Int) (ctx : RequestCtx) (w : World σ)
    (hp : s.provider = some p) (hno : GetSessionId s.config ctx = "") :
    (Start s now ctx w).world.drawn = (s.config.SessionIdGenerator w.drawn).2 ∧
    ((s.config.SessionIdGenerator w.drawn).1 = "" →
      (Start s now ctx w).err = some "session generator sessionId is empty" ∧
      (Start s now ctx w).sessionStore = none ∧
      (Start s now ctx w).world.calls = w.calls ∧
      (Start s now ctx w).world.backend = w.backend) ∧
    ((s.config.SessionIdGenerator w.drawn).1 ≠ "" →
      (Start s now ctx w).world.calls
        = w.calls ++ [ProviderCall.ReadStore (s.config.SessionIdGenerator w.drawn).1] ∧
      (Start s now ctx w).world.backend
        = (p.ReadStore now (s.config.SessionIdGenerator w.drawn).1 w.backend).2 ∧
      (Start s now ctx w).sessionStore
        = (p.ReadStore now (s.config.SessionIdGenerator w.drawn).1 w.backend).1.1 ∧
      ((Start s now ctx w).err = none →
        ((Start s now ctx w).ctx.respCookies.get? s.config.CookieName).map (fun c => c.value)
          = some (s.config.Encode (s.config.SessionIdGenerator w.drawn).1))) := by
  refine ⟨?_, ?_, ?_⟩
  · by_cases hg : (s.config.SessionIdGenerator w.drawn).1 = ""
    · simp [Start, hp, hno, hg]
    · cases hr : (p.ReadStore now (s.config.SessionIdGenerator w.drawn).1 w.backend).1.2 <;>
        simp [Start, hp, hno, hg, Start.read, hr, reissue_world_drawn]
  · intro hg
    simp [Start, hp, hno, hg]
  · intro hg
    cases hr : (p.ReadStore now (s.config.SessionIdGenerator w.drawn).1 w.backend).1.2 <;>
      simp [Start, hp, hno, hg, Start.read, hr, reissue_world_calls, reissue_world_backend,
        reissue_sessionStore, reissue_cookie_value]

theorem start_without_token_reads_generated_id_witness :
    Sample.session.provider = some (postgres.provider Sample.encode Sample.decode) ∧
    GetSessionId Sample.session.config Sample.anonymous = "" ∧
    (Start Sample.session 7 Sample.anonymous Sample.world).world.calls
      = Sample.world.calls
        ++ [ProviderCall.ReadStore (Sample.session.config.SessionIdGenerator 0).1] :=
  ⟨rfl, by decide,
    ((start_without_token_reads_generated_id Sample.session
      (postgres.provider Sample.encode Sample.decode) 7 Sample.anonymous Sample.world rfl
      (by decide)).2.2 (by decide)).1⟩

/-- C3. When the decode hook rejects a cookie value with an error, `Config.Decode` gives the
empty string for it; and `Start` on a request presenting that (non-empty) cookie, with an active
provider and a generator giving a non-empty id, calls `ReadStore` on the freshly generated id
and returns the store of that call, its error being absent exactly when that call reported
none (and then only the wrapped provider error, never a decode error). -/
theorem start_garbled_cookie_yields_fresh_session {σ κ : Type} (s : Session σ κ)
    (p : Provider σ κ) (now : Int) (ctx : RequestCtx) (w : World σ)
    (decode : String → Except String String) (v e : String)
    (hp : s.provider = some p) (hd : s.config.DecodeFunc = some decode)
    (hrej : decode v = .error e)
    (hcookie : ctx.RequestCookie s.config.CookieName = v) (hv : v ≠ "")
    (hg : (s.config.SessionIdGenerator w.drawn).1 ≠ "") :
    s.config.Decode v = "" ∧
    (Start s now ctx w).world.calls
      = w.calls ++ [ProviderCall.ReadStore (s.config.SessionIdGenerator w.drawn).1] ∧
    (Start s now ctx w).sessionStore
      = (p.ReadStore now (s.config.SessionIdGenerator w.drawn).1 w.backend).1.1 ∧
    (Start s now ctx w).err
      = (p.ReadStore now (s.config.SessionIdGenerator w.drawn).1 w.backend).1.2.map
          (fun err => "Error when read session data : " ++ err) := by
  have hdec : s.config.Decode v = "" := by
    simp [Config.Decode, hv, hd, hrej]
  have hno : GetSessionId s.config ctx = "" := by
    unfold GetSessionId
    simp only [hcookie, length_pos_iff_ne_empty]
    simp [hv, hdec]
  refine ⟨hdec, ?_⟩
  cases hr : (p.ReadStore now (s.config.SessionIdGenerator w.drawn).1 w.backend).1.2 <;>
    simp [Start, hp, hno, hg, Start.read, hr, reissue_world_calls, reissue_sessionStore,
      reissue_err]

theorem start_garbled_cookie_yields_fresh_session_witness :
    Sample.strictSession.config.Decode "%%%" = "" ∧
    (Start Sample.strictSession 7 Sample.garbled Sample.world).world.calls
      = Sample.world.calls
        ++ [ProviderCall.ReadStore (Sample.strictSession.config.SessionIdGenerator 0).1] :=
  have h := start_garbled_cookie_yields_fresh_session Sample.strictSession
    (postgres.provider Sample.encode Sample.decode) 7 Sample.garbled Sample.world
    Sample.strictDecode "%%%" "malformed token" rfl rfl rfl (by decide) (by decide)
    (by decide)
  ⟨h.1, h.2.1⟩

/-- C4. With an active provider and a generator giving a non-empty id `newId`, `Regenerate`
makes exactly one provider call: `Regenerate(oldId, newId)` when the request resolves to a
non-empty `oldId`, `ReadStore(newId)` otherwise; it returns the store of that call, and on
success the cookie it issues has the value `Encode(newId)`. -/
theorem regenerate_migrates_or_reads_new_id {σ κ : Type} (s : Session σ κ)
    (p : Provider σ κ) (now : Int) (ctx : RequestCtx) (w : World σ)
    (hp : s.provider = some p) (hg : (s.config.SessionIdGenerator w.drawn).1 ≠ "") :
    (GetSessionId s.config ctx ≠ "" →
      (Regenerate s now ctx w).world.calls
        = w.calls ++ [ProviderCall.Regenerate (GetSessionId s.config ctx)
            (s.config.SessionIdGenerator w.drawn).1] ∧
      (Regenerate s now ctx w).sessionStore
        = (p.Regenerate now (GetSessionId s.config ctx)
            (s.config.SessionIdGenerator w.drawn).1 w.backend).1.1 ∧
      (Regenerate s now ctx w).world.backend
        = (p.Regenerate now (GetSessionId s.config ctx)
            (s.config.SessionIdGenerator w.drawn).1 w.backend).2) ∧
    (GetSessionId s.config ctx = "" →
      (Regenerate s now ctx w).world.calls
        = w.calls ++ [ProviderCall.ReadStore (s.config.SessionIdGenerator w.drawn).1] ∧
      (Regenerate s now ctx w).sessionStore
        = (p.ReadStore now (s.config.SessionIdGenerator w.drawn).1 w.backend).1.1 ∧
      (Regenerate s now ctx w).world.backend
        = (p.ReadStore now (s.config.SessionIdGenerator w.drawn).1 w.backend).2) ∧
    ((Regenerate s now ctx w).err = none →
      ((Regenerate s now ctx w).ctx.respCookies.get? s.config.CookieName).map
          (fun c => c.value)
        = some (s.config.Encode (s.config.SessionIdGenerator w.drawn).1)) := by
  refine ⟨?_, ?_, ?_⟩
  · intro hold
    cases hr : (p.Regenerate now (GetSessionId s.config ctx)
        (s.config.SessionIdGenerator w.drawn).1 w.backend).1.2 <;>
      simp [Regenerate, hp, hg, hold, hr, reissue_world_calls, reissue_sessionStore,
        reissue_world_backend]
  · intro hold
    cases hr : (p.ReadStore now (s.config.SessionIdGenerator w.drawn).1 w.backend).1.2 <;>
      simp [Regenerate, hp, hg, hold, hr, reissue_world_calls, reissue_sessionStore,
        reissue_world_backend]
  · by_cases hold : GetSessionId s.config ctx = ""
    · cases hr : (p.ReadStore now (s.config.SessionIdGenerator w.drawn).1 w.backend).1.2 <;>
        simp [Regenerate, hp, hg, hold, hr, reissue_cookie_value]
    · cases hr : (p.Regenerate now (GetSessionId s.config ctx)
          (s.config.SessionIdGenerator w.drawn).1 w.backend).1.2 <;>
        simp [Regenerate, hp, hg, hold, hr, reissue_cookie_value]

theorem regenerate_migrates_or_reads_new_id_witness :
    GetSessionId Sample.session.config Sample.returning ≠ "" ∧
    (Regenerate Sample.session 7 Sample.returning Sample.world).world.calls
      = Sample.world.calls
        ++ [ProviderCall.Regenerate (GetSessionId Sample.session.config Sample.returning)
            (Sample.session.config.SessionIdGenerator Sample.world.drawn).1] :=
  ⟨by decide,
    ((regenerate_migrates_or_reads_new_id Sample.session
      (postgres.provider Sample.encode Sample.decode) 7 Sample.returning Sample.world rfl
      (by decide)).1 (by decide)).1⟩

/-- C6. On an engine without an active provider, `Start` and `Regenerate` both return a
configuration error and no store, and leave the request context and the whole world (generator
draw count, provider state and call log, per-request cache) exactly as they were. -/
theorem start_regenerate_require_provider {σ κ : Type} (s : Session σ κ) (now : Int)
    (ctx : RequestCtx) (w : World σ) (hp : s.provider = none) :
    ((Start s now ctx w).err = some "session start error, not set provider" ∧
      (Start s now ctx w).sessionStore = none ∧
      (Start s now ctx w).ctx = ctx ∧ (Start s now ctx w).world = w) ∧
    ((Regenerate s now ctx w).err = some "session regenerate error, not set provider" ∧
      (Regenerate s now ctx w).sessionStore = none ∧
      (Regenerate s now ctx w).ctx = ctx ∧ (Regenerate s now ctx w).world = w) := by
  simp [Start, Regenerate, hp]

theorem start_regenerate_require_provider_witness :
    Sample.bareSession.provider = none ∧
    (Start Sample.bareSession 7 Sample.returning Sample.world).err
      = some "session start error, not set provider" ∧
    (Regenerate Sample.bareSession 7 Sample.returning Sample.world).err
      = some "session regenerate error, not set provider" :=
  have h := start_regenerate_require_provider Sample.bareSession 7 Sample.returning
    Sample.world rfl
  ⟨rfl, h.1.1, h.2.1⟩

/-! ## The registry -/

theorem Register_snd_get? {P : Type} (providers : KV (Option P)) (providerName : String)
    (provider : Option P) (key : String) :
    (Register providers providerName provider).2.get? key = providers.get? key ∨
    ((Register providers providerName provider).2.get? key = some provider ∧
      provider.isSome = true) := by
  unfold Register
  by_cases h1 : (providers.index providerName).isSome = true
  · simp [h1]
  · by_cases h2 : provider.isNone = true
    · simp [h1, h2]
    · by_cases hk : key = providerName
      · right
        subst hk
        cases provider with
        | none => simp at h2
        | some q => simp [h1, KV.get?_set_same]
      · left
        simp [h1, h2, KV.get?_set_other _ _ _ _ hk]

theorem Registered.no_nil {P : Type} {providers : KV (Option P)}
    (h : Registered providers) (key : String) : providers.get? key ≠ some none := by
  induction h with
  | empty => simp [KV.get?]
  | register providers providerName provider _ ih =>
    rcases Register_snd_get? providers providerName provider key with h1 | ⟨h1, h2⟩
    · rw [h1]
      exact ih
    · rw [h1]
      intro hc
      cases provider with
      | none => simp at h2
      | some q => simp at hc

/-- C9. On every registry the program can reach, `Register(name, provider)` panics if and only
if `name` is already registered or `provider` is nil; a panicking call leaves the registry
unchanged; a successful call maps `name` to `provider`; every name registered before still maps
to the same provider; and the registry never holds a nil provider. -/
theorem register_panics_iff_duplicate_or_nil {P : Type} (providers : KV (Option P))
    (hreach : Registered providers) (providerName : String) (provider : Option P) :
    (((Register providers providerName provider).1.isSome = true) ↔
      ((providers.get? providerName).isSome = true ∨ provider = none)) ∧
    ((Register providers providerName provider).1.isSome = true →
      (Register providers providerName provider).2 = providers) ∧
    ((Register providers providerName provider).1 = none →
      (Register providers providerName provider).2.get? providerName = some provider) ∧
    (∀ (other : String) (q : Option P), providers.get? other = some q →
      (Register providers providerName provider).2.get? other = some q) ∧
    (∀ key : String,
      (Register providers providerName provider).2.get? key ≠ some none) := by
  have hnil := hreach.no_nil providerName
  have hidx : (providers.index providerName).isSome = (providers.get? providerName).isSome := by
    unfold KV.index
    cases hget : providers.get? providerName with
    | none => rfl
    | some q =>
      cases q with
      | none => exact absurd hget hnil
      | some q => rfl
  refine ⟨?_, ?_, ?_, ?_, ?_⟩
  · unfold Register
    rw [hidx]
    by_cases h1 : (providers.get? providerName).isSome = true
    · simp [h1]
    · cases provider with
      | none => simp [h1]
      | some q => simp [h1]
  · unfold Register
    by_cases h1 : (providers.index providerName).isSome = true
    · simp [h1]
    · cases provider with
      | none => simp [h1]
      | some q => simp [h1]
  · unfold Register
    by_cases h1 : (providers.index providerName).isSome = true
    · simp [h1]
    · cases provider with
      | none => simp [h1]
      | some q => simp [h1, KV.get?_set_same]
  · intro other q hq
    unfold Register
    by_cases h1 : (providers.index providerName).isSome = true
    · simp [h1, hq]
    · cases provider with
      | none => simp [h1, hq]
      | some p =>
        have hne : other ≠ providerName := by
          intro hc
          subst hc
          rw [hidx, hq] at h1
          simp at h1
        simp [h1, KV.get?_set_other _ _ _ _ hne, hq]
  · exact (Registered.register providers providerName provider hreach).no_nil

theorem register_panics_iff_duplicate_or_nil_witness :
    Registered Sample.registry ∧
    (Register Sample.registry "postgres"
        (some (postgres.provider Sample.encode Sample.decode))).2 = Sample.registry :=
  ⟨Registered.register [] "postgres" _ Registered.empty,
    (register_panics_iff_duplicate_or_nil Sample.registry
      (Registered.register [] "postgres" _ Registered.empty) "postgres"
      (some (postgres.provider Sample.encode Sample.decode))).2.1 (by decide)⟩

/-! ## The per-request cache -/

/-- C8, as stated, fails: with caching disabled `RemoveSessionStoreWithCtx` reports `true`, the
value it reports after a removal, and `SetSessionStoreWithCtx` still writes the cache. -/
theorem cache_accessors_disabled_counterexample :
    Sample.uncachedSession.config.NeedStoreInMap = false ∧
    (RemoveSessionStoreWithCtx Sample.uncachedSession Sample.anonymous Sample.world).1 = true ∧
    (SetSessionStoreWithCtx Sample.uncachedSession Sample.anonymous (some Sample.store)
        Sample.world).ccmap
      = [("0xc000", some Sample.store)] ∧
    Sample.world.ccmap = [] := by
  decide

/-- C8, amended. `GetSessionStoreWithCtx` fails with an explicit error when caching is disabled
(whatever the cache holds) and when caching is enabled but the request has no entry.
`RemoveSessionStoreWithCtx` reports `false` when caching is enabled and the request has no
entry, and reports `true` when caching is disabled; in both cases the cache is left as it was.
With caching enabled, what `SetSessionStoreWithCtx` stores is what `GetSessionStoreWithCtx`
returns. -/
theorem cache_accessors_results {σ κ : Type} (s : Session σ κ) (ctx : RequestCtx)
    (w : World σ) :
    (s.config.NeedStoreInMap = false →
      (∀ w' : World σ, GetSessionStoreWithCtx s ctx w'
        = .ok (none, some "Not support this method in constructor")) ∧
      RemoveSessionStoreWithCtx s ctx w = (true, w)) ∧
    (s.config.NeedStoreInMap = true → w.ccmap.get? (getCtxPointer ctx) = none →
      GetSessionStoreWithCtx s ctx w = .ok (none, some "Session store is empty") ∧
      RemoveSessionStoreWithCtx s ctx w = (false, w)) ∧
    (s.config.NeedStoreInMap = true → ∀ st : SessionStore,
      GetSessionStoreWithCtx s ctx (SetSessionStoreWithCtx s ctx (some st) w)
        = .ok (some st, none)) := by
  refine ⟨?_, ?_, ?_⟩
  · intro h
    simp [GetSessionStoreWithCtx, RemoveSessionStoreWithCtx, h]
  · intro h hnone
    simp [GetSessionStoreWithCtx, RemoveSessionStoreWithCtx, h, hnone, KV.has]
  · intro h st
    simp [GetSessionStoreWithCtx, SetSessionStoreWithCtx, h, KV.get?_set_same]

theorem cache_accessors_results_witness :
    Sample.session.config.NeedStoreInMap = true ∧
    Sample.world.ccmap.get? (getCtxPointer Sample.anonymous) = none ∧
    GetSessionStoreWithCtx Sample.session Sample.anonymous Sample.world
      = .ok (none, some "Session store is empty") ∧
    RemoveSessionStoreWithCtx Sample.session Sample.anonymous Sample.world
      = (false, Sample.world) :=
  ⟨rfl, rfl,
    (cache_accessors_results Sample.session Sample.anonymous Sample.world).2.1 rfl rfl⟩

/-! ## Backend errors -/

theorem Mentions.wrapped (label cause : String) : Mentions (label ++ cause) cause :=
  ⟨label, "", by simp⟩

/-- C7, as stated, fails for `Destroy`: when `Provider.Destroy` returns an error, `Destroy`
ends without a panic and hands its caller the same request context and the same cache as when
the provider call succeeds; nothing it leaves tells the two apart. -/
theorem destroy_swallows_provider_error :
    ((postgres.provider Sample.encode Sample.decode).Destroy "old-1" Sample.brokenBackend).1
      = some "connection refused" ∧
    ((postgres.provider Sample.encode Sample.decode).Destroy "old-1" Sample.backend).1 = none ∧
    (Destroy Sample.session 7 Sample.returning Sample.brokenWorld).world.calls
      = [ProviderCall.Destroy "old-1"] ∧
    (Destroy Sample.session 7 Sample.returning Sample.brokenWorld).panicked = none ∧
    (Destroy Sample.session 7 Sample.returning Sample.brokenWorld).ctx
      = (Destroy Sample.session 7 Sample.returning Sample.world).ctx ∧
    (Destroy Sample.session 7 Sample.returning Sample.brokenWorld).world.ccmap
      = (Destroy Sample.session 7 Sample.returning Sample.world).world.ccmap := by
  decide

/-- C7, amended. For the engine operations that return an error to their caller: with an active
provider, when the `ReadStore` call of `Start` (on the resolved id, or on the generated id when
none resolves), or the `Regenerate` or `ReadStore` call of `Regenerate`, returns an error, the
operation returns an error whose message contains the message of that error. -/
theorem provider_errors_reach_the_caller {σ κ : Type} (s : Session σ κ) (p : Provider σ κ)
    (now : Int) (ctx : RequestCtx) (w : World σ) (cause : String)
    (hp : s.provider = some p) :
    (GetSessionId s.config ctx ≠ "" →
      (p.ReadStore now (GetSessionId s.config ctx) w.backend).1.2 = some cause →
      ∃ message, (Start s now ctx w).err = some message ∧ Mentions message cause) ∧
    (GetSessionId s.config ctx = "" → (s.config.SessionIdGenerator w.drawn).1 ≠ "" →
      (p.ReadStore now (s.config.SessionIdGenerator w.drawn).1 w.backend).1.2 = some cause →
      ∃ message, (Start s now ctx w).err = some message ∧ Mentions message cause) ∧
    (GetSessionId s.config ctx ≠ "" → (s.config.SessionIdGenerator w.drawn).1 ≠ "" →
      (p.Regenerate now (GetSessionId s.config ctx) (s.config.SessionIdGenerator w.drawn).1
        w.backend).1.2 = some cause →
      ∃ message, (Regenerate s now ctx w).err = some message ∧ Mentions message cause) ∧
    (GetSessionId s.config ctx = "" → (s.config.SessionIdGenerator w.drawn).1 ≠ "" →
      (p.ReadStore now (s.config.SessionIdGenerator w.drawn).1 w.backend).1.2 = some cause →
      ∃ message, (Regenerate s now ctx w).err = some message ∧ Mentions message cause) := by
  refine ⟨?_, ?_, ?_, ?_⟩
  · intro hid hr
    refine ⟨"Error when read session data : " ++ cause, ?_, Mentions.wrapped _ _⟩
    simp [Start, hp, hid, Start.read, hr]
  · intro hid hg hr
    refine ⟨"Error when read session data : " ++ cause, ?_, Mentions.wrapped _ _⟩
    simp [Start, hp, hid, hg, Start.read, hr]
  · intro hid hg hr
    refine ⟨"Error when read session data : " ++ cause, ?_, Mentions.wrapped _ _⟩
    simp [Regenerate, hp, hid, hg, hr]
  · intro hid hg hr
    refine ⟨"Error when read session data : " ++ cause, ?_, Mentions.wrapped _ _⟩
    simp [Regenerate, hp, hid, hg, hr]

theorem provider_errors_reach_the_caller_witness :
    Sample.session.provider = some (postgres.provider Sample.encode Sample.decode) ∧
    GetSessionId Sample.session.config Sample.returning ≠ "" ∧
    ((postgres.provider Sample.encode Sample.decode).ReadStore 7
        (GetSessionId Sample.session.config Sample.returning)
        Sample.brokenWorld.backend).1.2 = some "connection refused" ∧
    ∃ message, (Start Sample.session 7 Sample.returning Sample.brokenWorld).err = some message ∧
      Mentions message "connection refused" :=
  ⟨rfl, by decide, by decide,
    (provider_errors_reach_the_caller Sample.session
      (postgres.provider Sample.encode Sample.decode) 7 Sample.returning Sample.brokenWorld
      "connection refused" rfl).1 (by decide) (by decide)⟩

/-! ## Destroy -/

section DestroyFacts

variable {σ κ : Type} (s : Session σ κ)

theorem Destroy.dropHeader_idem (ctx : RequestCtx) :
    Destroy.dropHeader s (Destroy.dropHeader s ctx) = Destroy.dropHeader s ctx := by
  unfold Destroy.dropHeader
  by_cases h : s.config.SessionIdInHttpHeader <;> simp [h, KV.del_del]

theorem Destroy.dropHeader_cookie (ctx : RequestCtx) (name : String) :
    Cookie.Get (Destroy.dropHeader s ctx) name = Cookie.Get ctx name := by
  unfold Destroy.dropHeader Cookie.Get RequestCtx.RequestCookie
  by_cases h : s.config.SessionIdInHttpHeader <;> simp [h]

theorem Destroy.dropHeader_delete (now : Int) (ctx : RequestCtx) (name : String) :
    Destroy.dropHeader s (Cookie.Delete now ctx name)
      = Cookie.Delete now (Destroy.dropHeader s ctx) name := by
  unfold Destroy.dropHeader Cookie.Delete
  by_cases h : s.config.SessionIdInHttpHeader <;> simp [h]

theorem Cookie.Get_Delete (now : Int) (ctx : RequestCtx) (name : String) :
    Cookie.Get (Cookie.Delete now ctx name) name = "" := by
  simp [Cookie.Get, Cookie.Delete, RequestCtx.RequestCookie, KV.get?_del_same]

theorem Destroy.deferred_idem (ctx : RequestCtx) (w : World σ) :
    Destroy.deferred s ctx (Destroy.deferred s ctx w) = Destroy.deferred s ctx w := by
  unfold Destroy.deferred RemoveSessionStoreWithCtx
  by_cases h : s.config.NeedStoreInMap
  · by_cases hhas : (w.ccmap.get? (getCtxPointer ctx)).isSome = true
    · simp [h, hhas, KV.has, KV.get?_del_same]
    · simp [h, hhas, KV.has]
  · simp [h]

theorem Destroy.deferred_calls (ctx : RequestCtx) (w : World σ) :
    (Destroy.deferred s ctx w).calls = w.calls := by
  unfold Destroy.deferred RemoveSessionStoreWithCtx
  by_cases h : s.config.NeedStoreInMap <;>
    by_cases hhas : w.ccmap.has (getCtxPointer ctx) = true <;> simp [h, hhas]

theorem Destroy.deferred_backend (ctx : RequestCtx) (w : World σ) :
    (Destroy.deferred s ctx w).backend = w.backend := by
  unfold Destroy.deferred RemoveSessionStoreWithCtx
  by_cases h : s.config.NeedStoreInMap <;>
    by_cases hhas : w.ccmap.has (getCtxPointer ctx) = true <;> simp [h, hhas]

/-- A second `Destroy` on what the first one left changes nothing. -/
theorem Destroy.twice (p : Provider σ κ) (hp : s.provider = some p) (now later : Int)
    (ctx : RequestCtx) (w : World σ) :
    (Destroy s later (Destroy s now ctx w).ctx (Destroy s now ctx w).world).ctx
      = (Destroy s now ctx w).ctx ∧
    (Destroy s later (Destroy s now ctx w).ctx (Destroy s now ctx w).world).world
      = (Destroy s now ctx w).world ∧
    (Destroy s later (Destroy s now ctx w).ctx (Destroy s now ctx w).world).panicked
      = none := by
  by_cases hc : Cookie.Get ctx s.config.CookieName = ""
  · have h1 : Destroy s now ctx w
        = { panicked := none, ctx := Destroy.dropHeader s ctx,
            world := Destroy.deferred s (Destroy.dropHeader s ctx) w } := by
      simp [Destroy, Destroy.dropHeader_cookie, hc]
    rw [h1]
    simp [Destroy, Destroy.dropHeader_idem, Destroy.dropHeader_cookie, hc,
      Destroy.deferred_idem]
  · have h1 : Destroy s now ctx w
        = { panicked := none,
            ctx := Cookie.Delete now (Destroy.dropHeader s ctx) s.config.CookieName,
            world := Destroy.deferred s
              (Cookie.Delete now (Destroy.dropHeader s ctx) s.config.CookieName)
              { w with
                backend := (p.Destroy (s.config.Decode (Cookie.Get ctx s.config.CookieName))
                  w.backend).2
                calls := w.calls ++ [ProviderCall.Destroy
                  (s.config.Decode (Cookie.Get ctx s.config.CookieName))] } } := by
      simp [Destroy, Destroy.dropHeader_cookie, hc, hp]
    rw [h1]
    simp [Destroy, Destroy.dropHeader_delete, Destroy.dropHeader_idem, Cookie.Get_Delete,
      Destroy.deferred_idem]

end DestroyFacts

theorem postgres.Destroy_removes (sessionId : String) (pp : postgres.Provider)
    (h : (postgres.Destroy sessionId pp).1 = none) :
    (postgres.Destroy sessionId pp).2.sessionDao.table.has sessionId = false := by
  unfold postgres.Destroy postgres.sessionDao.deleteBySessionId postgres.sessionDao.roundTrip
    at h ⊢
  cases hf : pp.sessionDao.faults with
  | nil => simp [hf, KV.has, KV.get?_del_same]
  | cons f rest =>
    cases f with
    | none => simp [hf, KV.has, KV.get?_del_same]
    | some e => simp [hf] at h

/-- C5, as stated, fails in its last part: the postgres provider in front of a database whose
round trip fails keeps the record of the session that `Destroy` was called for. -/
theorem destroy_can_leave_the_record :
    Sample.session.provider = some (postgres.provider Sample.encode Sample.decode) ∧
    Sample.session.config.Decode (Cookie.Get Sample.returning Sample.session.config.CookieName)
      = "old-1" ∧
    (Destroy Sample.session 7 Sample.returning
        Sample.brokenWorld).world.backend.sessionDao.table.get? "old-1"
      = some { contents := "cart=3;", last_active := 100 } :=
  ⟨rfl, by decide, by decide⟩

/-- C5, amended. With an active provider, calling `Destroy` twice leaves the same request
context and the same world (provider state, call log, cache) as calling it once, the second call
ending without a panic; on a request with no cookie `Destroy` makes no provider call; on a
request whose cookie decodes to `id` its one provider call is `Destroy(id)`, and afterwards the
provider holds no record for `id` whenever that call reported no error and the provider's
`Destroy` removes the record it is asked to remove. -/
theorem destroy_idempotent {σ κ : Type} (s : Session σ κ) (p : Provider σ κ)
    (holds : σ → String → Bool) (now later : Int) (ctx : RequestCtx) (w : World σ)
    (hp : s.provider = some p)
    (hremoves : ∀ (id : String) (b : σ),
      (p.Destroy id b).1 = none → holds (p.Destroy id b).2 id = false) :
    ((Destroy s later (Destroy s now ctx w).ctx (Destroy s now ctx w).world).ctx
        = (Destroy s now ctx w).ctx ∧
      (Destroy s later (Destroy s now ctx w).ctx (Destroy s now ctx w).world).world
        = (Destroy s now ctx w).world ∧
      (Destroy s later (Destroy s now ctx w).ctx (Destroy s now ctx w).world).panicked
        = none) ∧
    (Cookie.Get ctx s.config.CookieName = "" →
      (Destroy s now ctx w).world.calls = w.calls ∧
      (Destroy s now ctx w).world.backend = w.backend) ∧
    (Cookie.Get ctx s.config.CookieName ≠ "" →
      (Destroy s now ctx w).world.calls
        = w.calls ++ [ProviderCall.Destroy
            (s.config.Decode (Cookie.Get ctx s.config.CookieName))] ∧
      (Destroy s now ctx w).world.backend
        = (p.Destroy (s.config.Decode (Cookie.Get ctx s.config.CookieName)) w.backend).2 ∧
      ((p.Destroy (s.config.Decode (Cookie.Get ctx s.config.CookieName)) w.backend).1 = none →
        holds (Destroy s now ctx w).world.backend
          (s.config.Decode (Cookie.Get ctx s.config.CookieName)) = false)) := by
  refine ⟨Destroy.twice s p hp now later ctx w, ?_, ?_⟩
  · intro hc
    simp [Destroy, Destroy.dropHeader_cookie, hc, Destroy.deferred_calls,
      Destroy.deferred_backend]
  · intro hc
    have hb : (Destroy s now ctx w).world.backend
        = (p.Destroy (s.config.Decode (Cookie.Get ctx s.config.CookieName)) w.backend).2 := by
      simp [Destroy, Destroy.dropHeader_cookie, hc, hp, Destroy.deferred_backend]
    refine ⟨?_, hb, ?_⟩
    · simp [Destroy, Destroy.dropHeader_cookie, hc, hp, Destroy.deferred_calls]
    · intro hok
      rw [hb]
      exact hremoves _ _ hok

theorem destroy_idempotent_witness :
    Sample.session.provider = some (postgres.provider Sample.encode Sample.decode) ∧
    Cookie.Get Sample.returning Sample.session.config.CookieName ≠ "" ∧
    (Destroy Sample.session 9
        (Destroy Sample.session 7 Sample.returning Sample.world).ctx
        (Destroy Sample.session 7 Sample.returning Sample.world).world).world
      = (Destroy Sample.session 7 Sample.returning Sample.world).world ∧
    (Destroy Sample.session 7 Sample.returning Sample.world).world.calls
      = Sample.world.calls ++ [ProviderCall.Destroy
          (Sample.session.config.Decode
            (Cookie.Get Sample.returning Sample.session.config.CookieName))] :=
  have h := destroy_idempotent Sample.session (postgres.provider Sample.encode Sample.decode)
    (fun pp id => pp.sessionDao.table.has id) 7 9 Sample.returning Sample.world rfl
    (fun id b hok => postgres.Destroy_removes id b hok)
  ⟨rfl, by decide, h.1.2.1, (h.2.2 (by decide)).1⟩

/-! ## The postgres provider -/

namespace postgres

theorem sessionDao.roundTrip_table (sd : sessionDao) : sd.roundTrip.2.table = sd.table := by
  unfold sessionDao.roundTrip
  cases sd.faults <;> rfl

theorem sessionDao.get_table (sd : sessionDao) (sessionId : String) :
    (sd.getSessionBySessionId sessionId).2.table = sd.table := by
  have h := sessionDao.roundTrip_table sd
  unfold sessionDao.getSessionBySessionId
  rcases hrt : sd.roundTrip with ⟨f, sd1⟩
  rw [hrt] at h
  cases f <;> simpa using h

theorem sessionDao.get_found (sd : sessionDao) (sessionId : String)
    (h : (sd.getSessionBySessionId sessionId).1.2 = none) :
    (sd.getSessionBySessionId sessionId).1.1 = sd.table.get? sessionId := by
  have ht := sessionDao.roundTrip_table sd
  unfold sessionDao.getSessionBySessionId at h ⊢
  rcases hrt : sd.roundTrip with ⟨f, sd1⟩
  rw [hrt] at ht h
  cases f with
  | none =>
    simp only at ht
    simp [ht]
  | some e => simp at h

theorem sessionDao.insert_done (sd : sessionDao) (sessionId contents : String)
    (lastActive : Int) (h : (sd.insert sessionId contents lastActive).1 = none) :
    (sd.insert sessionId contents lastActive).2.table
      = sd.table.set sessionId { contents := contents, last_active := lastActive } := by
  have ht := sessionDao.roundTrip_table sd
  unfold sessionDao.insert at h ⊢
  rcases hrt : sd.roundTrip with ⟨f, sd1⟩
  rw [hrt] at ht h
  cases f with
  | none =>
    simp only at ht
    by_cases hhas : sd1.table.has sessionId = true
    · simp [hhas] at h
    · simp only [hhas]
      simp [ht]
  | some e => simp at h

theorem sessionDao.delete_done (sd : sessionDao) (sessionId : String)
    (h : (sd.deleteBySessionId sessionId).1 = none) :
    (sd.deleteBySessionId sessionId).2.table = sd.table.del sessionId := by
  have ht := sessionDao.roundTrip_table sd
  unfold sessionDao.deleteBySessionId at h ⊢
  rcases hrt : sd.roundTrip with ⟨f, sd1⟩
  rw [hrt] at ht h
  cases f with
  | none =>
    simp only at ht
    simp [ht]
  | some e => simp at h

/-- Go `ReadStore` on an id that has a record leaves the table as it is. -/
theorem ReadStore_present_table (now : Int) (sessionId : String) (pp : Provider) (row : Row)
    (hrow : pp.sessionDao.table.get? sessionId = some row)
    (r : (Option SessionStore × Option String) × Provider)
    (h : ReadStore now sessionId pp = .ok r) :
    r.2.sessionDao.table = pp.sessionDao.table := by
  have htab := sessionDao.get_table pp.sessionDao sessionId
  unfold ReadStore at h
  cases hg : (pp.sessionDao.getSessionBySessionId sessionId).1.2 with
  | some e =>
    simp only [hg] at h
    cases h
    exact htab
  | none =>
    have hfound := sessionDao.get_found pp.sessionDao sessionId hg
    rw [hrow] at hfound
    simp only [hg, hfound] at h
    by_cases hlen : row.contents.length = 0
    · simp only [hlen, if_true] at h
      cases h
      exact htab
    · simp only [hlen, if_false] at h
      cases hu : pp.config.UnSerializeFunc with
      | none => simp [hu] at h
      | some f =>
        simp only [hu] at h
        cases hd : f row.contents with
        | error e =>
          simp only [hd] at h
          cases h
          exact htab
        | ok data =>
          simp only [hd] at h
          cases h
          exact htab

end postgres

/-- C10, as stated, fails in its second part: `gone` has no record and `old-1` has one, yet
`Regenerate("gone", "old-1")` ends with an error from the insert while `ReadStore("old-1")`
returns the stored contents. -/
theorem regenerate_absent_old_differs_from_readStore :
    Sample.backend.sessionDao.table.get? "gone" = none ∧
    (postgres.Regenerate 7 "gone" "old-1" Sample.backend).toOption.map (fun r => r.1)
      = some (none, some "duplicate key value violates unique constraint") ∧
    (postgres.ReadStore 7 "old-1" Sample.backend).toOption.map (fun r => r.1)
      = some (some { sessionId := "old-1", data := [("raw", "cart=3;")] }, none) := by
  decide

/-- C10, amended. On the session table of the postgres provider, for distinct ids: when
`oldId` has a record with contents `c`, a `Regenerate(oldId, newId)` that returns without error
leaves `oldId` without a record and `newId` with a record whose contents are `c`; and when
neither `oldId` nor `newId` has a record, `Regenerate(oldId, newId)` is `ReadStore(newId)`: the
same result and the same provider state. -/
theorem regenerate_moves_the_record (now : Int) (oldSessionId sessionId : String)
    (pp : postgres.Provider) (hne : oldSessionId ≠ sessionId) :
    (∀ (row : postgres.Row) (r : (Option SessionStore × Option String) × postgres.Provider),
      pp.sessionDao.table.get? oldSessionId = some row →
      postgres.Regenerate now oldSessionId sessionId pp = .ok r → r.1.2 = none →
      r.2.sessionDao.table.get? oldSessionId = none ∧
      (r.2.sessionDao.table.get? sessionId).map (fun x => x.contents) = some row.contents) ∧
    (pp.sessionDao.table.get? oldSessionId = none →
      pp.sessionDao.table.get? sessionId = none →
      postgres.Regenerate now oldSessionId sessionId pp
        = postgres.ReadStore now sessionId pp) := by
  refine ⟨?_, ?_⟩
  · intro row r hrow h hok
    unfold postgres.Regenerate at h
    cases hg : (pp.sessionDao.getSessionBySessionId oldSessionId).1.2 with
    | some e =>
      simp only [hg] at h
      cases h
      simp at hok
    | none =>
      have hfound := postgres.sessionDao.get_found pp.sessionDao oldSessionId hg
      have htab := postgres.sessionDao.get_table pp.sessionDao oldSessionId
      rw [hrow] at hfound
      simp only [hg, hfound] at h
      cases hd : ((pp.sessionDao.getSessionBySessionId oldSessionId).2.deleteBySessionId
          oldSessionId).1 with
      | some e =>
        simp only [hd] at h
        cases h
        simp at hok
      | none =>
        have hdel := postgres.sessionDao.delete_done _ _ hd
        simp only [hd] at h
        cases hi : (((pp.sessionDao.getSessionBySessionId oldSessionId).2.deleteBySessionId
            oldSessionId).2.insert sessionId row.contents (postgres.unix now)).1 with
        | some e =>
          simp only [hi] at h
          cases h
          simp at hok
        | none =>
          have hins := postgres.sessionDao.insert_done _ _ _ _ hi
          simp only [hi] at h
          have hnew : (((pp.sessionDao.getSessionBySessionId oldSessionId).2.deleteBySessionId
              oldSessionId).2.insert sessionId row.contents (postgres.unix now)).2.table.get?
                sessionId
              = some { contents := row.contents, last_active := postgres.unix now } := by
            rw [hins, KV.get?_set_same]
          have hkeep := postgres.ReadStore_present_table now sessionId _ _ hnew r h
          simp only at hkeep
          rw [hkeep, hins, hdel, htab]
          constructor
          · rw [KV.get?_set_other _ _ _ _ hne, KV.get?_del_same]
          · rw [KV.get?_set_same]
            rfl
  · intro hold hnew
    unfold postgres.Regenerate postgres.ReadStore
    unfold postgres.sessionDao.getSessionBySessionId
    rcases hrt : pp.sessionDao.roundTrip with ⟨f, sd1⟩
    have ht := postgres.sessionDao.roundTrip_table pp.sessionDao
    rw [hrt] at ht
    simp only at ht
    cases f with
    | some e => simp
    | none => simp [ht, hold, hnew]

theorem regenerate_moves_the_record_witness :
    ("old-1" : String) ≠ "sid-a" ∧
    Sample.backend.sessionDao.table.get? "old-1"
      = some { contents := "cart=3;", last_active := 100 } ∧
    postgres.Regenerate 7 "old-1" "sid-a" Sample.backend = .ok Sample.moved ∧
    Sample.moved.1.2 = none ∧
    Sample.moved.2.sessionDao.table.get? "old-1" = none ∧
    (Sample.moved.2.sessionDao.table.get? "sid-a").map (fun x => x.contents)
      = some "cart=3;" :=
  ⟨by decide, rfl, rfl, rfl,
    (regenerate_moves_the_record 7 "old-1" "sid-a" Sample.backend (by decide)).1
      { contents := "cart=3;", last_active := 100 } Sample.moved rfl rfl rfl⟩

/-! ## The background sweep -/

/-- One `SetProvider` call starts one sweep task when it succeeds with a provider whose
`NeedGC()` is true, and none otherwise. -/
theorem SetProvider.gcTasks_step {σ κ : Type} (providers : KV (Option (Provider σ κ)))
    (s : Session σ κ) (providerName : String) (providerConfig : κ) (w : World σ) :
    (SetProvider providers s providerName providerConfig w).world.gcTasks
      = w.gcTasks
        + (if SetProvider.succeededNeedingGC
              (SetProvider providers s providerName providerConfig w) then 1 else 0) := by
  unfold SetProvider SetProvider.succeededNeedingGC
  cases hget : providers.get? providerName with
  | none => simp
  | some entry =>
    cases entry with
    | none => simp
    | some provider =>
      cases hinit : (provider.Init s.config.SessionLifetime providerConfig w.backend).1 with
      | some e => simp [hinit]
      | none =>
        by_cases hgc : provider.NeedGC
            (provider.Init s.config.SessionLifetime providerConfig w.backend).2 = true
        · simp [hinit, hgc]
        · simp [hinit, hgc]

/-- A `SetProvider` call that returns an error leaves the session as it was, starts no sweep
task and touches neither the generator nor the cache.  When the name is not registered the
world is unchanged; when `Init` returned the error, the state behind the provider is the state
that `Init` call left and the call log has grown by that call. -/
theorem SetProvider.failed_effect {σ κ : Type} (providers : KV (Option (Provider σ κ)))
    (s : Session σ κ) (providerName : String) (providerConfig : κ) (w : World σ)
    (h : (SetProvider providers s providerName providerConfig w).err ≠ none) :
    (SetProvider providers s providerName providerConfig w).session = s ∧
    (SetProvider providers s providerName providerConfig w).world.gcTasks = w.gcTasks ∧
    (SetProvider providers s providerName providerConfig w).world.drawn = w.drawn ∧
    (SetProvider providers s providerName providerConfig w).world.ccmap = w.ccmap ∧
    (providers.get? providerName = none →
      (SetProvider providers s providerName providerConfig w).world = w) ∧
    (∀ provider : Provider σ κ, providers.get? providerName = some (some provider) →
      (SetProvider providers s providerName providerConfig w).world.backend
        = (provider.Init s.config.SessionLifetime providerConfig w.backend).2 ∧
      (SetProvider providers s providerName providerConfig w).world.calls
        = w.calls ++ [ProviderCall.Init s.config.SessionLifetime]) := by
  unfold SetProvider at h ⊢
  cases hget : providers.get? providerName with
  | none => simp
  | some entry =>
    cases entry with
    | none => simp
    | some provider =>
      cases hinit : (provider.Init s.config.SessionLifetime providerConfig w.backend).1 with
      | some e => simp [hinit]
      | none => simp [hget, hinit] at h

/-- C11, as stated, fails twice over.  Two `SetProvider` calls in a row that both succeed with
the postgres provider, whose `NeedGC()` is true, start two sweep tasks on the one session, not
one.  And a `SetProvider` call that fails in `Init` after a successful one keeps the same
provider active but not unchanged: its host is now empty and its unserialize hook nil, because
the postgres `Init` stores the configuration before it checks it. -/
theorem setProvider_two_sweeps_and_failed_init_changes_provider :
    ((SetProvider Sample.registry Sample.bareSession "postgres" Sample.backend.config
          Sample.world).err = none ∧
      SetProvider.succeededNeedingGC
          (SetProvider Sample.registry Sample.bareSession "postgres" Sample.backend.config
            Sample.world) = true ∧
      SetProvider.successesNeedingGC Sample.registry Sample.bareSession Sample.world
          Sample.twoCalls = 2 ∧
      Sample.world.gcTasks = 0 ∧
      (SetProvider.sequence Sample.registry Sample.bareSession Sample.world
          Sample.twoCalls).2.gcTasks = 2) ∧
    (Sample.afterFirst.err = none ∧
      Sample.afterFirst.session.provider.isSome = true ∧
      Sample.afterFirst.world.backend.config.Host = "localhost" ∧
      Sample.afterFirst.world.backend.config.UnSerializeFunc.isSome = true ∧
      Sample.afterFailed.err
        = some "session postgres provider init error, config Host not empty" ∧
      Sample.afterFailed.session.provider.isSome = true ∧
      Sample.afterFailed.world.gcTasks = Sample.afterFirst.world.gcTasks ∧
      Sample.afterFailed.world.backend.config.Host = "" ∧
      Sample.afterFailed.world.backend.config.UnSerializeFunc.isNone = true) := by
  decide

/-- C11, amended. For every sequence of `SetProvider` calls on one session, the number of sweep
tasks started is the number of calls that succeeded with a provider whose `NeedGC()` is true:
one task per such call, none when there is no such call.  A `SetProvider` call that fails (the
name is not registered, or `Init` returns an error) starts no task and leaves the session
unchanged, so the same provider stays the active one, and it touches neither the generator nor
the cache; with an unregistered name nothing changes at all, and with an `Init` error the state
behind the provider is the state that `Init` call left. -/
theorem sweep_tasks_one_per_successful_setProvider {σ κ : Type}
    (providers : KV (Option (Provider σ κ))) (s : Session σ κ) (w : World σ)
    (calls : List (String × κ)) :
    (SetProvider.sequence providers s w calls).2.gcTasks
      = w.gcTasks + SetProvider.successesNeedingGC providers s w calls ∧
    (∀ (providerName : String) (providerConfig : κ),
      (SetProvider providers s providerName providerConfig w).err ≠ none →
      (SetProvider providers s providerName providerConfig w).session = s ∧
      (SetProvider providers s providerName providerConfig w).world.gcTasks = w.gcTasks ∧
      (SetProvider providers s providerName providerConfig w).world.drawn = w.drawn ∧
      (SetProvider providers s providerName providerConfig w).world.ccmap = w.ccmap ∧
      (providers.get? providerName = none →
        (SetProvider providers s providerName providerConfig w).world = w) ∧
      (∀ provider : Provider σ κ, providers.get? providerName = some (some provider) →
        (SetProvider providers s providerName providerConfig w).world.backend
          = (provider.Init s.config.SessionLifetime providerConfig w.backend).2 ∧
        (SetProvider providers s providerName providerConfig w).world.calls
          = w.calls ++ [ProviderCall.Init s.config.SessionLifetime])) := by
  refine ⟨?_, fun providerName providerConfig h =>
    SetProvider.failed_effect providers s providerName providerConfig w h⟩
  induction calls generalizing s w with
  | nil => simp [SetProvider.sequence, SetProvider.successesNeedingGC]
  | cons call rest ih =>
    simp only [SetProvider.sequence, SetProvider.successesNeedingGC]
    rw [ih, SetProvider.gcTasks_step]
    omega

theorem sweep_tasks_one_per_successful_setProvider_witness :
    (SetProvider.sequence Sample.registry Sample.bareSession Sample.world
        Sample.twoCalls).2.gcTasks
      = Sample.world.gcTasks
        + SetProvider.successesNeedingGC Sample.registry Sample.bareSession Sample.world
            Sample.twoCalls ∧
    Sample.registry.get? "mysql" = none ∧
    (SetProvider Sample.registry Sample.bareSession "mysql" Sample.backend.config
        Sample.world).err ≠ none ∧
    (SetProvider Sample.registry Sample.bareSession "mysql" Sample.backend.config
        Sample.world).world = Sample.world ∧
    Sample.registry.get? "postgres"
      = some (some (postgres.provider Sample.encode Sample.decode)) ∧
    (SetProvider Sample.registry Sample.afterFirst.session "postgres" Sample.badConfig
        Sample.afterFirst.world).err ≠ none ∧
    (SetProvider Sample.registry Sample.afterFirst.session "postgres" Sample.badConfig
        Sample.afterFirst.world).session = Sample.afterFirst.session ∧
    (SetProvider Sample.registry Sample.afterFirst.session "postgres" Sample.badConfig
        Sample.afterFirst.world).world.gcTasks = Sample.afterFirst.world.gcTasks ∧
    (SetProvider Sample.registry Sample.afterFirst.session "postgres" Sample.badConfig
        Sample.afterFirst.world).world.backend
      = ((postgres.provider Sample.encode Sample.decode).Init
          Sample.afterFirst.session.config.SessionLifetime Sample.badConfig
          Sample.afterFirst.world.backend).2 :=
  have h := sweep_tasks_one_per_successful_setProvider Sample.registry Sample.bareSession
    Sample.world Sample.twoCalls
  have hf := (sweep_tasks_one_per_successful_setProvider Sample.registry
    Sample.afterFirst.session Sample.afterFirst.world []).2 "postgres" Sample.badConfig
    (by decide)
  ⟨h.1, rfl, by decide, (h.2 "mysql" Sample.backend.config (by decide)).2.2.2.2.1 rfl,
    rfl, by decide, hf.1, hf.2.1, (hf.2.2.2.2.2 _ rfl).1⟩

/-! ## Header transport -/

section HeaderTransport

variable {σ κ : Type} (s : Session σ κ) (now : Int) (ctx : RequestCtx) (w : World σ)
  (sessionId encodeCookieValue : String) (sessionStore : Option SessionStore)

theorem reissue_reqCookies :
    (reissue s now ctx w sessionId encodeCookieValue sessionStore).ctx.reqCookies
      = ctx.reqCookies := by
  unfold reissue Cookie.Set
  by_cases h : s.config.SessionIdInHttpHeader <;> simp [h]

theorem reissue_formValues :
    (reissue s now ctx w sessionId encodeCookieValue sessionStore).ctx.formValues
      = ctx.formValues := by
  unfold reissue Cookie.Set
  by_cases h : s.config.SessionIdInHttpHeader <;> simp [h]

theorem reissue_reqHeaders (h : s.config.SessionIdInHttpHeader = true) :
    (reissue s now ctx w sessionId encodeCookieValue sessionStore).ctx.reqHeaders
      = ctx.reqHeaders.set s.config.SessionNameInHttpHeader sessionId := by
  unfold reissue Cookie.Set
  simp [h]

/-- After the closing block with header transport on, a request without cookie and without
query token resolves to `Decode` of the id that was mirrored into its header. -/
theorem GetSessionId_reissue (hh : s.config.SessionIdInHttpHeader = true)
    (hc : ctx.RequestCookie s.config.CookieName = "")
    (hq : s.config.SessionIdInURLQuery = false
      ∨ ctx.FormValue s.config.SessionNameInUrlQuery = "")
    (hid : sessionId ≠ "") :
    GetSessionId s.config (reissue s now ctx w sessionId encodeCookieValue sessionStore).ctx
      = s.config.Decode sessionId := by
  have h1 : (reissue s now ctx w sessionId encodeCookieValue sessionStore).ctx.RequestCookie
      s.config.CookieName = "" := by
    simpa [RequestCtx.RequestCookie, reissue_reqCookies] using hc
  have h2 : (reissue s now ctx w sessionId encodeCookieValue sessionStore).ctx.FormValue
      s.config.SessionNameInUrlQuery = ctx.FormValue s.config.SessionNameInUrlQuery := by
    simp [RequestCtx.FormValue, reissue_formValues]
  have h3 : (reissue s now ctx w sessionId encodeCookieValue sessionStore).ctx.RequestPeek
      s.config.SessionNameInHttpHeader = sessionId := by
    simp [RequestCtx.RequestPeek, reissue_reqHeaders s now ctx w sessionId encodeCookieValue
      sessionStore hh, KV.get?_set_same]
  have hlen : sessionId.length > 0 := (length_pos_iff_ne_empty sessionId).2 hid
  unfold GetSessionId
  simp only [h1, h2, h3]
  rcases hq with hq | hq
  · simp [hq, hh, hlen]
  · simp [hq, hh, hlen]

end HeaderTransport

/-- With header transport on, after a successful `Start` on a request without cookie and
without query token, `GetSessionId` on the request `Start` leaves returns `Decode` of the id
`Start` resolved (the id the request resolved to before, or else the generated one): the
header carries the id as it is, and is read back through the decode hook. -/
theorem getSessionId_after_start_decodes_mirrored_id {σ κ : Type} (s : Session σ κ)
    (p : Provider σ κ) (now : Int) (ctx : RequestCtx) (w : World σ)
    (hp : s.provider = some p) (hh : s.config.SessionIdInHttpHeader = true)
    (hc : ctx.RequestCookie s.config.CookieName = "")
    (hq : s.config.SessionIdInURLQuery = false
      ∨ ctx.FormValue s.config.SessionNameInUrlQuery = "")
    (hok : (Start s now ctx w).err = none) :
    GetSessionId s.config (Start s now ctx w).ctx
      = s.config.Decode
          (if GetSessionId s.config ctx = "" then (s.config.SessionIdGenerator w.drawn).1
           else GetSessionId s.config ctx) := by
  by_cases hid : GetSessionId s.config ctx = ""
  · by_cases hg : (s.config.SessionIdGenerator w.drawn).1 = ""
    · simp [Start, hp, hid, hg] at hok
    · cases hr : (p.ReadStore now (s.config.SessionIdGenerator w.drawn).1 w.backend).1.2 with
      | some e => simp [Start, hp, hid, hg, Start.read, hr] at hok
      | none =>
        simp only [Start, hp, hid, hg, Start.read, hr, if_true, if_false]
        exact GetSessionId_reissue s now ctx _ _ _ _ hh hc hq hg
  · cases hr : (p.ReadStore now (GetSessionId s.config ctx) w.backend).1.2 with
    | some e => simp [Start, hp, hid, Start.read, hr] at hok
    | none =>
      simp only [Start, hp, hid, Start.read, hr, if_false]
      exact GetSessionId_reissue s now ctx _ _ _ _ hh hc hq hid

theorem Sample.tag_hooks_round_trip (x : String) :
    Sample.headerConfig.Decode (Sample.headerConfig.Encode x) = x := by
  have hne : String.mk ('e' :: 'n' :: 'c' :: ':' :: x.data) ≠ "" := by
    intro h
    have := congrArg String.data h
    simp at this
  simp [Config.Decode, Config.Encode, Sample.headerConfig, Sample.tagEncode, Sample.tagDecode,
    hne]

/-- C12 fails on the code. The tag hooks satisfy `Decode(Encode(x)) = x` for every `x` and
header transport is on; `Start` on a request without cookie and without query token succeeds,
resolves the generated id `sid-a` and mirrors it, as it is, into the request header; yet
`GetSessionId` on that request returns the empty string, because it decodes the header value
while the header was written without encoding (the cookie is written encoded). -/
theorem header_round_trip_breaks_under_hooks :
    (∀ x : String, Sample.headerConfig.Decode (Sample.headerConfig.Encode x) = x) ∧
    Sample.headerConfig.SessionIdInHttpHeader = true ∧
    Sample.anonymous.RequestCookie Sample.headerConfig.CookieName = "" ∧
    Sample.anonymous.FormValue Sample.headerConfig.SessionNameInUrlQuery = "" ∧
    (Start Sample.headerSession 7 Sample.anonymous Sample.world).err = none ∧
    (Start Sample.headerSession 7 Sample.anonymous Sample.world).sessionStore
      = some { sessionId := "sid-a", data := [] } ∧
    (Start Sample.headerSession 7 Sample.anonymous Sample.world).world.calls
      = [ProviderCall.ReadStore "sid-a"] ∧
    (Start Sample.headerSession 7 Sample.anonymous Sample.world).ctx.RequestPeek
        "X-Session-Id" = "sid-a" ∧
    ((Start Sample.headerSession 7 Sample.anonymous Sample.world).ctx.respCookies.get?
        "_fssid_").map (fun c => c.value) = some "enc:sid-a" ∧
    GetSessionId Sample.headerSession.config
        (Start Sample.headerSession 7 Sample.anonymous Sample.world).ctx = "" :=
  ⟨Sample.tag_hooks_round_trip, by decide, by decide, by decide, by decide, by decide,
    by decide, by decide, by decide, by decide⟩

end Fasthttpsession
